import Mathlib

/-!
# Container lifecycle of cri-containerd: start, remove, attach

A shallow embedding of `pkg/server/container_start.go`, `container_remove.go` and
`container_attach.go`, and of the vendored `generate/seccomp/parse_remove.go`.

* Calls into collaborators (sandbox store, containerd, logger agents, checkpoint, file
  system, streaming server) are answered by an environment record, one field per call
  site; every call that is made is appended to a list of `Call`s in program order.
* Code of the repository that the three files use but that is declared elsewhere
  (`Status.State`, `Status.Update`, the container store, the name index, the constants
  and helpers of `helpers.go`) is collected in the record `Deps` and stays a parameter
  of every operation.
* Go's deferred functions are written as an outer function applied to the outcome of
  the code that follows the `defer` statement.
-/

namespace CriContainerd

/-! ## Data model -/

/-- The CRI `runtime.ContainerState` enumeration. -/
inductive ContainerState where
  | CONTAINER_CREATED
  | CONTAINER_RUNNING
  | CONTAINER_EXITED
  | CONTAINER_UNKNOWN
  deriving DecidableEq, Repr

/-- A Go `error` value: its `Error()` text, and whether `errdefs.IsNotFound` holds of it. -/
structure Error where
  msg : String
  notFound : Bool
  deriving DecidableEq, Repr

/-- The value `fmt.Errorf` returns for an already formatted text. -/
def Errorf (text : String) : Error :=
  { msg := text, notFound := false }

/-- The fields of `containerstore.Status` (timestamps are `UnixNano` values, `Pid` is a
`uint32`, `ExitCode` an `int32`). -/
structure Status where
  Pid : Nat
  CreatedAt : Int
  StartedAt : Int
  FinishedAt : Int
  ExitCode : Int
  Reason : String
  Message : String
  Removing : Bool
  deriving DecidableEq, Repr

/-- The part of `runtime.ContainerConfig` that the lifecycle operations read. -/
structure ContainerConfig where
  LogPath : String
  Tty : Bool
  StdinOnce : Bool
  deriving DecidableEq, Repr

/-- The immutable `containerstore.Metadata`. -/
structure Metadata where
  Config : ContainerConfig
  SandboxID : String
  deriving DecidableEq, Repr

/-- A container as held by the container store; `Status` is the current content of its
status storage. -/
structure Container where
  ID : String
  Metadata : Metadata
  Status : Status
  deriving DecidableEq, Repr

/-- The part of `runtime.PodSandboxConfig` that is read. -/
structure PodSandboxConfig where
  LogDirectory : String
  deriving DecidableEq, Repr

/-- A sandbox as returned by the sandbox store. -/
structure Sandbox where
  Config : PodSandboxConfig
  deriving DecidableEq, Repr

/-- The `containerd.ProcessStatus` values. -/
inductive ProcessStatus where
  | Running
  | Created
  | Stopped
  | Paused
  | Pausing
  | Unknown
  deriving DecidableEq, Repr

/-- The `agents.StreamType` of a container logger. -/
inductive StreamType where
  | Stdout
  | Stderr
  deriving DecidableEq, Repr

/-- The content of the container store, in insertion order. -/
abbrev Store := List Container

/-- The name index: reserved names with the key (container ID) that holds each. -/
abbrev NameIndex := List (String × String)

/-- The service state the operations work on. -/
structure criContainerdService where
  containerStore : Store
  containerNameIndex : NameIndex
  RootDir : String
  deriving DecidableEq, Repr

/-- A call made into a collaborator. `statusUpdate id stored` is a call of
`Status.Update` on container `id` after which the status storage holds `stored`. -/
inductive Call where
  | containerStoreGet (id : String)
  | statusUpdate (id : String) (stored : Status)
  | sandboxStoreGet (sandboxID : String)
  | sandboxTask
  | sandboxTaskStatus
  | loggerStart (logPath : String) (stream : StreamType)
  | newTask
  | taskStart
  | taskDelete
  | closeStdoutReader
  | closeStderrReader
  | containerdDelete (id : String)
  | checkpointDelete (id : String)
  | ensureRemoveAll (dir : String)
  | containerStoreDelete (id : String)
  | nameIndexReleaseByKey (id : String)
  | getAttach (id : String)
  | containerTask (id : String)
  | handleResizing
  | attachStreams (stdinOnce : Bool) (tty : Bool)
  deriving DecidableEq, Repr

/-- A transaction function handed to `Status.Update` (`containerstore.UpdateFunc`). -/
abbrev UpdateFunc := Status → Status × Option Error

/-- Code the three files use that is declared outside of them.

* `State` is the accessor `Status.State()`.
* `commit cur new err` is what `Status.Update` leaves in the status storage and what it
  returns, when the storage held `cur` and the transaction function, called once on
  `cur`, returned `(new, err)`.
* `ErrNotExist` is the sentinel `store.ErrNotExist`; `Get`, `Delete` are the container
  store methods and `ReleaseByKey` the name index method.
* `errorStartExitCode`, `errorStartReason`, `criContainerStateToString` and
  `getContainerRootDir` come from `helpers.go`.
* `quote` is the rendering of the `%q` verb and `filepathJoin` is `filepath.Join`. -/
structure Deps where
  State : Status → ContainerState
  commit : Status → Status → Option Error → Status × Option Error
  ErrNotExist : Error
  Get : Store → String → Except Error Container
  Delete : Store → String → Store
  ReleaseByKey : NameIndex → String → NameIndex
  errorStartExitCode : Int
  errorStartReason : String
  criContainerStateToString : ContainerState → String
  getContainerRootDir : String → String → String
  quote : String → String
  filepathJoin : String → String → String

/-- The call `Status.Update(u)` on a storage holding `cur`: the transaction function runs
once on the current snapshot, the rest is `Deps.commit`. -/
def Update (d : Deps) (u : UpdateFunc) (cur : Status) : Status × Option Error :=
  d.commit cur (u cur).1 (u cur).2

/-- Writing through the shared status storage of container `id`: every holder of the
container, the store included, sees the new content. -/
def Store.setStatus (s : Store) (id : String) (st : Status) : Store :=
  s.map (fun c => if c.ID = id then { c with Status := st } else c)

/-! ## Start (`container_start.go`) -/

/-- Answers of the collaborators that `startContainer` calls. -/
structure StartEnv where
  sandboxStoreGet : String → Except Error Sandbox
  sandboxTask : Option Error
  sandboxTaskStatus : Except Error ProcessStatus
  loggerStart : String → StreamType → Option Error
  newTask : Option Error
  taskStart : Option Error
  taskDelete : Option Error
  taskPid : Nat
  now : Int

/-- What a run of `startContainer` leaves behind: the returned error, the status behind
the pointer it was given, and the calls it made. -/
structure StartOutcome where
  retErr : Option Error
  status : Status
  calls : List Call
  deriving DecidableEq, Repr

/-- The calls `pre` were made before the outcome `r` was produced. -/
def StartOutcome.after (pre : List Call) (r : StartOutcome) : StartOutcome :=
  { r with calls := pre ++ r.calls }

/-- Lines 154-162 of `startContainer`: start the task and record pid and start time. -/
def startContainer.startTask (d : Deps) (env : StartEnv) (id : String)
    (status : Status) : StartOutcome :=
  match env.taskStart with
  | some err =>
    { retErr := some (Errorf ("failed to start containerd task " ++ d.quote id ++ ": " ++ err.msg)),
      status := status, calls := [Call.taskStart] }
  | none =>
    { retErr := none,
      status := { status with Pid := env.taskPid, StartedAt := env.now },
      calls := [Call.taskStart] }

/-- The deferred function of lines 146-152: delete the task when an error is returned;
`Call.taskDelete` is the call `task.Delete(ctx, containerd.WithProcessKill)`, whose error
is only logged. -/
def startContainer.deferTaskDelete (r : StartOutcome) : StartOutcome :=
  match r.retErr with
  | some _ => { r with calls := r.calls ++ [Call.taskDelete] }
  | none => r

/-- Lines 142-162: create the task, then run what follows under the deferred delete. -/
def startContainer.createTask (d : Deps) (env : StartEnv) (id : String)
    (status : Status) : StartOutcome :=
  match env.newTask with
  | some err =>
    { retErr := some (Errorf ("failed to create containerd task: " ++ err.msg)),
      status := status, calls := [Call.newTask] }
  | none =>
    (startContainer.deferTaskDelete (startContainer.startTask d env id status)).after [Call.newTask]

/-- Lines 128-162: start the loggers when a log path is configured, then create the task. -/
def startContainer.startLoggers (d : Deps) (env : StartEnv) (id : String)
    (config : ContainerConfig) (sandboxConfig : PodSandboxConfig) (status : Status) :
    StartOutcome :=
  if config.LogPath ≠ "" then
    let logPath := d.filepathJoin sandboxConfig.LogDirectory config.LogPath
    match env.loggerStart logPath StreamType.Stdout with
    | some err =>
      { retErr := some (Errorf ("failed to start container stdout logger: " ++ err.msg)),
        status := status, calls := [Call.loggerStart logPath StreamType.Stdout] }
    | none =>
      if !config.Tty then
        match env.loggerStart logPath StreamType.Stderr with
        | some err =>
          { retErr := some (Errorf ("failed to start container stderr logger: " ++ err.msg)),
            status := status,
            calls := [Call.loggerStart logPath StreamType.Stdout,
                      Call.loggerStart logPath StreamType.Stderr] }
        | none =>
          (startContainer.createTask d env id status).after
            [Call.loggerStart logPath StreamType.Stdout,
             Call.loggerStart logPath StreamType.Stderr]
      else
        (startContainer.createTask d env id status).after
          [Call.loggerStart logPath StreamType.Stdout]
  else
    startContainer.createTask d env id status

/-- The deferred function of lines 122-127: close the read ends of both pipes when an
error is returned. -/
def startContainer.deferClosePipes (r : StartOutcome) : StartOutcome :=
  match r.retErr with
  | some _ => { r with calls := r.calls ++ [Call.closeStdoutReader, Call.closeStderrReader] }
  | none => r

/-- Lines 94-162: look up the sandbox, check that its task runs, then wire the streams
and run what follows under the deferred pipe close. -/
def startContainer.checkSandbox (d : Deps) (env : StartEnv) (id : String)
    (metadata : Metadata) (status : Status) : StartOutcome :=
  match env.sandboxStoreGet metadata.SandboxID with
  | Except.error err =>
    { retErr := some (Errorf ("sandbox " ++ d.quote metadata.SandboxID ++ " not found: " ++ err.msg)),
      status := status, calls := [Call.sandboxStoreGet metadata.SandboxID] }
  | Except.ok sandbox =>
    match env.sandboxTask with
    | some err =>
      { retErr := some (Errorf ("failed to get sandbox container " ++ d.quote metadata.SandboxID
          ++ " info: " ++ err.msg)),
        status := status,
        calls := [Call.sandboxStoreGet metadata.SandboxID, Call.sandboxTask] }
    | none =>
      match env.sandboxTaskStatus with
      | Except.error err =>
        { retErr := some (Errorf ("failed to get task status for sandbox container "
            ++ d.quote id ++ ": " ++ err.msg)),
          status := status,
          calls := [Call.sandboxStoreGet metadata.SandboxID, Call.sandboxTask,
                    Call.sandboxTaskStatus] }
      | Except.ok taskStatus =>
        if taskStatus ≠ ProcessStatus.Running then
          { retErr := some (Errorf ("sandbox container " ++ d.quote metadata.SandboxID
              ++ " is not running")),
            status := status,
            calls := [Call.sandboxStoreGet metadata.SandboxID, Call.sandboxTask,
                      Call.sandboxTaskStatus] }
        else
          (startContainer.deferClosePipes
            (startContainer.startLoggers d env id metadata.Config sandbox.Config status)).after
            [Call.sandboxStoreGet metadata.SandboxID, Call.sandboxTask, Call.sandboxTaskStatus]

/-- The deferred function of lines 83-92: on an error, set the exit fields. -/
def startContainer.deferSetExited (d : Deps) (env : StartEnv) (r : StartOutcome) :
    StartOutcome :=
  match r.retErr with
  | some retErr =>
    { r with status :=
        { r.status with
          Pid := 0
          FinishedAt := env.now
          ExitCode := d.errorStartExitCode
          Reason := d.errorStartReason
          Message := retErr.msg } }
  | none => r

/-- The function `startContainer`: `id` is `container.ID()`, `status` the content behind
the pointer passed in. -/
def startContainer (d : Deps) (env : StartEnv) (id : String) (metadata : Metadata)
    (status : Status) : StartOutcome :=
  if d.State status ≠ ContainerState.CONTAINER_CREATED then
    { retErr := some (Errorf ("container " ++ d.quote id ++ " is in "
        ++ d.criContainerStateToString (d.State status) ++ " state")),
      status := status, calls := [] }
  else if status.Removing then
    { retErr := some (Errorf ("container " ++ d.quote id ++ " is in removing state")),
      status := status, calls := [] }
  else
    startContainer.deferSetExited d env (startContainer.checkSandbox d env id metadata status)

/-- What an operation on the service leaves behind: the response or error, the service
state, and the calls made. -/
structure Outcome (α : Type) where
  ret : Except Error α
  service : criContainerdService
  calls : List Call

/-- The transaction function `StartContainer` hands to `Status.Update` (lines 52-57). -/
def StartContainer.transaction (d : Deps) (env : StartEnv) (container : Container) :
    UpdateFunc :=
  fun status => ((startContainer d env container.ID container.Metadata status).status, none)

/-- The function `StartContainer`. `startErr` is the variable the transaction function
assigns when `Status.Update` runs it on the current status; the calls of
`startContainer` happen inside the update. -/
def StartContainer (d : Deps) (env : StartEnv) (c : criContainerdService)
    (containerID : String) : Outcome Unit :=
  match d.Get c.containerStore containerID with
  | Except.error err =>
    { ret := Except.error (Errorf ("an error occurred when try to find container "
        ++ d.quote containerID ++ ": " ++ err.msg)),
      service := c, calls := [Call.containerStoreGet containerID] }
  | Except.ok container =>
    let id := container.ID
    let run := startContainer d env container.ID container.Metadata container.Status
    let startErr := run.retErr
    let upd := Update d (StartContainer.transaction d env container) container.Status
    let c1 := { c with containerStore := c.containerStore.setStatus id upd.1 }
    let calls := [Call.containerStoreGet containerID] ++ run.calls ++ [Call.statusUpdate id upd.1]
    match startErr with
    | some e => { ret := Except.error e, service := c1, calls := calls }
    | none =>
      match upd.2 with
      | some err =>
        { ret := Except.error (Errorf ("failed to update container " ++ d.quote id
            ++ " metadata: " ++ err.msg)),
          service := c1, calls := calls }
      | none => { ret := Except.ok (), service := c1, calls := calls }

/-- The calls `pre` were made before the outcome `r` was produced. -/
def Outcome.after {α : Type} (pre : List Call) (r : Outcome α) : Outcome α :=
  { r with calls := pre ++ r.calls }

/-! ## Remove (`container_remove.go`) -/

/-- Answers of the collaborators that `RemoveContainer` calls. -/
structure RemoveEnv where
  containerdDelete : Option Error
  checkpointDelete : Option Error
  ensureRemoveAll : String → Option Error

/-- The transaction function of `setContainerRemoving` (lines 95-105). -/
def setContainerRemoving.transaction (d : Deps) : UpdateFunc :=
  fun status =>
    if d.State status = ContainerState.CONTAINER_RUNNING then
      (status, some (Errorf "container is still running"))
    else if status.Removing then
      (status, some (Errorf "container is already in removing state"))
    else
      ({ status with Removing := true }, none)

/-- The function `setContainerRemoving`, on a container whose status storage holds `cur`:
the new content of the storage and the returned error. -/
def setContainerRemoving (d : Deps) (cur : Status) : Status × Option Error :=
  Update d (setContainerRemoving.transaction d) cur

/-- The transaction function of `resetContainerRemoving` (lines 111-114). -/
def resetContainerRemoving.transaction : UpdateFunc :=
  fun status => ({ status with Removing := false }, none)

/-- The function `resetContainerRemoving`, on a container whose status storage holds
`cur`. -/
def resetContainerRemoving (d : Deps) (cur : Status) : Status × Option Error :=
  Update d resetContainerRemoving.transaction cur

/-- Lines 74-89 of `RemoveContainer`: checkpoint, root directory, store and name index. -/
def RemoveContainer.removeArtifacts (d : Deps) (env : RemoveEnv) (c : criContainerdService)
    (id : String) : Outcome Unit :=
  match env.checkpointDelete with
  | some err =>
    { ret := Except.error (Errorf ("failed to delete container checkpoint for " ++ d.quote id
        ++ ": " ++ err.msg)),
      service := c, calls := [Call.checkpointDelete id] }
  | none =>
    let containerRootDir := d.getContainerRootDir c.RootDir id
    match env.ensureRemoveAll containerRootDir with
    | some err =>
      { ret := Except.error (Errorf ("failed to remove container root directory "
          ++ d.quote containerRootDir ++ ": " ++ err.msg)),
        service := c,
        calls := [Call.checkpointDelete id, Call.ensureRemoveAll containerRootDir] }
    | none =>
      { ret := Except.ok (),
        service :=
          { c with
            containerStore := d.Delete c.containerStore id
            containerNameIndex := d.ReleaseByKey c.containerNameIndex id },
        calls := [Call.checkpointDelete id, Call.ensureRemoveAll containerRootDir,
                  Call.containerStoreDelete id, Call.nameIndexReleaseByKey id] }

/-- Lines 66-89 of `RemoveContainer`: delete the containerd container, a not-found error
being tolerated, then remove the artifacts. -/
def RemoveContainer.deleteContainer (d : Deps) (env : RemoveEnv) (c : criContainerdService)
    (id : String) : Outcome Unit :=
  match env.containerdDelete with
  | some err =>
    if !err.notFound then
      { ret := Except.error (Errorf ("failed to delete containerd container " ++ d.quote id
          ++ ": " ++ err.msg)),
        service := c, calls := [Call.containerdDelete id] }
    else
      (RemoveContainer.removeArtifacts d env c id).after [Call.containerdDelete id]
  | none =>
    (RemoveContainer.removeArtifacts d env c id).after [Call.containerdDelete id]

/-- The deferred function of lines 52-59: when an error is returned, reset the removing
flag of the container, whose status storage holds `cur`; an error of the reset is only
logged. -/
def RemoveContainer.deferReset (d : Deps) (id : String) (cur : Status) (r : Outcome Unit) :
    Outcome Unit :=
  match r.ret with
  | Except.error _ =>
    let reset := resetContainerRemoving d cur
    { r with
      service := { r.service with containerStore := r.service.containerStore.setStatus id reset.1 }
      calls := r.calls ++ [Call.statusUpdate id reset.1] }
  | Except.ok _ => r

/-- The function `RemoveContainer`. -/
def RemoveContainer (d : Deps) (env : RemoveEnv) (c : criContainerdService)
    (containerID : String) : Outcome Unit :=
  match d.Get c.containerStore containerID with
  | Except.error err =>
    if err ≠ d.ErrNotExist then
      { ret := Except.error (Errorf ("an error occurred when try to find container "
          ++ d.quote containerID ++ ": " ++ err.msg)),
        service := c, calls := [Call.containerStoreGet containerID] }
    else
      { ret := Except.ok (), service := c, calls := [Call.containerStoreGet containerID] }
  | Except.ok container =>
    let id := container.ID
    let set := setContainerRemoving d container.Status
    let c1 := { c with containerStore := c.containerStore.setStatus id set.1 }
    match set.2 with
    | some err =>
      { ret := Except.error (Errorf ("failed to set removing state for container "
          ++ d.quote id ++ ": " ++ err.msg)),
        service := c1,
        calls := [Call.containerStoreGet containerID, Call.statusUpdate id set.1] }
    | none =>
      (RemoveContainer.deferReset d id set.1 (RemoveContainer.deleteContainer d env c1 id)).after
        [Call.containerStoreGet containerID, Call.statusUpdate id set.1]

/-! ## Attach (`container_attach.go`) -/

/-- The fields of `runtime.AttachRequest`. -/
structure AttachRequest where
  ContainerId : String
  Stdin : Bool
  Tty : Bool
  deriving DecidableEq, Repr

/-- The field of `runtime.AttachResponse`. -/
structure AttachResponse where
  Url : String
  deriving DecidableEq, Repr

/-- Answers of the collaborators that `Attach` and `attachContainer` call. -/
structure AttachEnv where
  getAttach : AttachRequest → Except Error AttachResponse
  containerTask : Option Error
  attachStreams : Option Error

/-- The function `Attach`. -/
def Attach (d : Deps) (env : AttachEnv) (c : criContainerdService) (r : AttachRequest) :
    Outcome AttachResponse :=
  match d.Get c.containerStore r.ContainerId with
  | Except.error err =>
    { ret := Except.error (Errorf ("failed to find container in store: " ++ err.msg)),
      service := c, calls := [Call.containerStoreGet r.ContainerId] }
  | Except.ok cntr =>
    let state := d.State cntr.Status
    if state ≠ ContainerState.CONTAINER_RUNNING then
      { ret := Except.error (Errorf ("container is in " ++ d.criContainerStateToString state
          ++ " state")),
        service := c, calls := [Call.containerStoreGet r.ContainerId] }
    else
      { ret := env.getAttach r, service := c,
        calls := [Call.containerStoreGet r.ContainerId, Call.getAttach r.ContainerId] }

/-- The function `attachContainer`; the stream handles and the resize channel carry no
data the control flow reads and are left out. -/
def attachContainer (d : Deps) (env : AttachEnv) (c : criContainerdService) (id : String)
    (tty : Bool) : Outcome Unit :=
  match d.Get c.containerStore id with
  | Except.error err =>
    { ret := Except.error (Errorf ("failed to find container " ++ d.quote id ++ " in store: "
        ++ err.msg)),
      service := c, calls := [Call.containerStoreGet id] }
  | Except.ok cntr =>
    let state := d.State cntr.Status
    if state ≠ ContainerState.CONTAINER_RUNNING then
      { ret := Except.error (Errorf ("container is in " ++ d.criContainerStateToString state
          ++ " state")),
        service := c, calls := [Call.containerStoreGet id] }
    else
      match env.containerTask with
      | some err =>
        { ret := Except.error (Errorf ("failed to load task: " ++ err.msg)),
          service := c, calls := [Call.containerStoreGet id, Call.containerTask cntr.ID] }
      | none =>
        match env.attachStreams with
        | some err =>
          { ret := Except.error (Errorf ("failed to attach container: " ++ err.msg)),
            service := c,
            calls := [Call.containerStoreGet id, Call.containerTask cntr.ID,
                      Call.handleResizing,
                      Call.attachStreams cntr.Metadata.Config.StdinOnce tty] }
        | none =>
          { ret := Except.ok (), service := c,
            calls := [Call.containerStoreGet id, Call.containerTask cntr.ID,
                      Call.handleResizing,
                      Call.attachStreams cntr.Metadata.Config.StdinOnce tty] }

/-! ## Seccomp rule removal (`generate/seccomp/parse_remove.go`)

A Go slice is a window on a backing array. `append(s[:i], s[i+1:]...)` has room in the
array of `s` and so moves the cells in place, and a `range` loop keeps the slice header
it started with while it reads its values from the array as it is at each step. The
slice is therefore modelled by the cells of its array together with its length. -/

/-- The fields of `rspec.LinuxSyscall` that the code reads; `Action` is a string type. -/
structure LinuxSyscall where
  Names : List String
  Action : String
  deriving DecidableEq, Repr

/-- A slice of rules that starts at the first cell of its backing array: the cells of
the array (its number is the capacity) and the length of the slice. -/
structure SyscallSlice where
  array : List LinuxSyscall
  len : Nat
  deriving DecidableEq, Repr

/-- The slice made of the given rules, with capacity equal to length. -/
def SyscallSlice.ofList (l : List LinuxSyscall) : SyscallSlice :=
  { array := l, len := l.length }

/-- The elements of the slice. -/
def SyscallSlice.toList (s : SyscallSlice) : List LinuxSyscall :=
  s.array.take s.len

/-- The field of `rspec.LinuxSeccomp` that the code reads and writes. -/
structure LinuxSeccomp where
  Syscalls : SyscallSlice
  deriving DecidableEq, Repr

/-- A run-time panic of the Go program. -/
inductive Panic where
  | sliceBoundsOutOfRange
  | indexOutOfRange
  deriving DecidableEq, Repr

/-- The call `strings.Split(s, sep)` for a separator of one character, on the characters
of `s`: the pieces between the separators, one more than there are separators. -/
def stringsSplit.pieces (sep : Char) : List Char → List (List Char)
  | [] => [[]]
  | c :: cs =>
    if c = sep then [] :: stringsSplit.pieces sep cs
    else
      match stringsSplit.pieces sep cs with
      | [] => [[c]]
      | p :: ps => (c :: p) :: ps

/-- The call `strings.Split(s, ",")`. -/
def stringsSplit (s : String) : List String :=
  (stringsSplit.pieces ',' s.data).map String.mk

/-- The call `strings.Join(names, ",")`. -/
def stringsJoin (names : List String) : String :=
  String.intercalate "," names

/-- Lines 17-22 of `RemoveAction`: the names to remove. -/
def RemoveAction.syscallsToRemove (arguments : String) : List String :=
  if arguments.data.contains ',' then stringsSplit arguments else [arguments]

/-- Line 26, `append(config.Syscalls[:counter], config.Syscalls[counter+1:]...)`:
`s[:counter]` needs `counter` within the capacity and `s[counter+1:]` needs `counter+1`
within the length; the cells from `counter+1` up to the length move one place down, the
other cells stay, and the length goes down by one. -/
def RemoveAction.removeAt (s : SyscallSlice) (counter : Nat) : Except Panic SyscallSlice :=
  if s.array.length < counter then
    Except.error Panic.sliceBoundsOutOfRange
  else if s.len < counter + 1 then
    Except.error Panic.sliceBoundsOutOfRange
  else
    Except.ok
      { array := s.array.take counter
          ++ ((s.array.drop (counter + 1)).take (s.len - (counter + 1)))
          ++ s.array.drop (s.len - 1),
        len := s.len - 1 }

/-- Lines 24-28 of `RemoveAction`: the loop, with `remaining` steps to go from index
`counter`; `s` is the current value of `config.Syscalls`. `reflect.DeepEqual` on two
string slices of which the first is not empty is equality of the lists. -/
def RemoveAction.range (syscallsToRemove : List String) :
    Nat → Nat → SyscallSlice → Except Panic SyscallSlice
  | 0, _, s => Except.ok s
  | remaining + 1, counter, s =>
    match s.array.get? counter with
    | none => Except.error Panic.indexOutOfRange
    | some syscallStruct =>
      if syscallsToRemove = syscallStruct.Names then
        match RemoveAction.removeAt s counter with
        | Except.error p => Except.error p
        | Except.ok s1 => RemoveAction.range syscallsToRemove remaining (counter + 1) s1
      else
        RemoveAction.range syscallsToRemove remaining (counter + 1) s

/-- The function `RemoveAction`: a panic, or the returned error together with the
configuration behind the pointer. -/
def RemoveAction (arguments : String) (config : Option LinuxSeccomp) :
    Except Panic (Option Error × Option LinuxSeccomp) :=
  match config with
  | none => Except.ok (some (Errorf "Cannot remove action from nil Seccomp pointer"), none)
  | some cfg =>
    match RemoveAction.range (RemoveAction.syscallsToRemove arguments) cfg.Syscalls.len 0
        cfg.Syscalls with
    | Except.error p => Except.error p
    | Except.ok s => Except.ok (none, some { cfg with Syscalls := s })

/-- Lines 55-59 of `RemoveAllMatchingRules`: the loop, with `remaining` steps to go from
index `i`; `cfg` is the configuration behind the pointer. The error that `RemoveAction`
returns is dropped. -/
def RemoveAllMatchingRules.range (seccompAction : String) :
    Nat → Nat → LinuxSeccomp → Except Panic LinuxSeccomp
  | 0, _, cfg => Except.ok cfg
  | remaining + 1, i, cfg =>
    match cfg.Syscalls.array.get? i with
    | none => Except.error Panic.indexOutOfRange
    | some syscall =>
      if syscall.Action = seccompAction then
        match RemoveAction (stringsJoin syscall.Names) (some cfg) with
        | Except.error p => Except.error p
        | Except.ok (_, some cfg1) =>
          RemoveAllMatchingRules.range seccompAction remaining (i + 1) cfg1
        | Except.ok (_, none) =>
          RemoveAllMatchingRules.range seccompAction remaining (i + 1) cfg
      else
        RemoveAllMatchingRules.range seccompAction remaining (i + 1) cfg

/-- The function `RemoveAllMatchingRules`; `parseAction` is declared in another file of
the package and is a parameter. -/
def RemoveAllMatchingRules (parseAction : String → Except Error String)
    (config : Option LinuxSeccomp) (action : String) :
    Except Panic (Option Error × Option LinuxSeccomp) :=
  match config with
  | none => Except.ok (some (Errorf "Cannot remove action from nil Seccomp pointer"), none)
  | some cfg =>
    match parseAction action with
    | Except.error err => Except.ok (some err, some cfg)
    | Except.ok seccompAction =>
      match RemoveAllMatchingRules.range seccompAction cfg.Syscalls.len 0 cfg with
      | Except.error p => Except.error p
      | Except.ok cfg1 => Except.ok (none, some cfg1)

/-! ## The collaborators as the specification describes them -/

/-- Modelled from the spec: the accessor `State()` of `containerstore.Status` is declared
in `pkg/store/container`, outside the files at hand. The specification gives the four
states, the order `CREATED → RUNNING → EXITED`, and says of the timestamps that they are
"valid only once corresponding transitions have occurred"; the state is read off them:
finished, else started, else created, else unknown. -/
def Status.State (s : Status) : ContainerState :=
  if s.FinishedAt ≠ 0 then ContainerState.CONTAINER_EXITED
  else if s.StartedAt ≠ 0 then ContainerState.CONTAINER_RUNNING
  else if s.CreatedAt ≠ 0 then ContainerState.CONTAINER_CREATED
  else ContainerState.CONTAINER_UNKNOWN

/-- Modelled from the spec: `Status.Update` is declared in `pkg/store/container`. Section
4.1: it "always persists the returned Status regardless of whether fn returned an error"
and "returns fn's error to the caller". -/
def specCommit (_cur new : Status) (err : Option Error) : Status × Option Error :=
  (new, err)

/-- Modelled from the spec: the container store method `Get` is declared in
`pkg/store/container`. Section 3: "get-by-ID (fails if absent)", keys unique; the failure
is the not-found sentinel. -/
def Store.Get (errNotExist : Error) (s : Store) (id : String) : Except Error Container :=
  match s.find? (fun c => c.ID = id) with
  | some c => Except.ok c
  | none => Except.error errNotExist

/-- Modelled from the spec: the container store method `Delete` is declared in
`pkg/store/container`. Section 3: "delete-by-ID (idempotent no-op tolerant)". -/
def Store.Delete (s : Store) (id : String) : Store :=
  s.filter (fun c => c.ID ≠ id)

/-- Modelled from the spec: the name index method `ReleaseByKey` is declared outside the
files at hand. Section 3: the index maps a name to an ID and the reservation is released
at removal. -/
def NameIndex.ReleaseByKey (n : NameIndex) (key : String) : NameIndex :=
  n.filter (fun e => e.2 ≠ key)

/-- Sample values of the parameters, for evaluating the operations on concrete inputs:
the collaborators as modelled above, the `%q` verb on strings without characters to
escape, and path joining of clean relative parts. -/
def sampleDeps : Deps where
  State := Status.State
  commit := specCommit
  ErrNotExist := { msg := "does not exist", notFound := false }
  Get := Store.Get { msg := "does not exist", notFound := false }
  Delete := Store.Delete
  ReleaseByKey := NameIndex.ReleaseByKey
  errorStartExitCode := 128
  errorStartReason := "StartError"
  criContainerStateToString := fun s =>
    match s with
    | ContainerState.CONTAINER_CREATED => "CONTAINER_CREATED"
    | ContainerState.CONTAINER_RUNNING => "CONTAINER_RUNNING"
    | ContainerState.CONTAINER_EXITED => "CONTAINER_EXITED"
    | ContainerState.CONTAINER_UNKNOWN => "CONTAINER_UNKNOWN"
  getContainerRootDir := fun rootDir id => rootDir ++ "/containers/" ++ id
  quote := fun s => "\"" ++ s ++ "\""
  filepathJoin := fun a b => a ++ "/" ++ b


/-! ## Concrete inputs -/

/-- A start environment in which every collaborator succeeds and the sandbox runs. -/
def sampleStartEnv : StartEnv where
  sandboxStoreGet := fun _ => Except.ok { Config := { LogDirectory := "/var/log/pods/s1" } }
  sandboxTask := none
  sandboxTaskStatus := Except.ok ProcessStatus.Running
  loggerStart := fun _ _ => none
  newTask := none
  taskStart := none
  taskDelete := none
  taskPid := 4242
  now := 1500000000000000000

/-- The metadata of the sample containers: logging to `c.log`, no tty, in sandbox `s1`. -/
def sampleMetadata : Metadata where
  Config := { LogPath := "c.log", Tty := false, StdinOnce := false }
  SandboxID := "s1"

/-- The status of a freshly created container. -/
def createdStatus : Status where
  Pid := 0
  CreatedAt := 1400000000000000000
  StartedAt := 0
  FinishedAt := 0
  ExitCode := 0
  Reason := ""
  Message := ""
  Removing := false

/-- The status of a running container with pid 42. -/
def runningStatus : Status :=
  { createdStatus with Pid := 42, StartedAt := 1450000000000000000 }

/-- The status of a created container whose removal is in progress. -/
def removingStatus : Status :=
  { createdStatus with Removing := true }

/-- A service holding the created container `c1`, the running container `c2` and the
container `c3` that is being removed. -/
def sampleService : criContainerdService where
  containerStore :=
    [ { ID := "c1", Metadata := sampleMetadata, Status := createdStatus },
      { ID := "c2", Metadata := sampleMetadata, Status := runningStatus },
      { ID := "c3", Metadata := sampleMetadata, Status := removingStatus } ]
  containerNameIndex := [("name1", "c1"), ("name2", "c2"), ("name3", "c3")]
  RootDir := "/var/lib/cri-containerd"

/-- A parser of action names for evaluating `RemoveAllMatchingRules`: it accepts `allow`
and `errno`. -/
def sampleParseAction (action : String) : Except Error String :=
  if action = "allow" then Except.ok "SCMP_ACT_ALLOW"
  else if action = "errno" then Except.ok "SCMP_ACT_ERRNO"
  else Except.error (Errorf ("Unrecognized action: " ++ action))

/-- A rule for one system call. -/
def rule (name action : String) : LinuxSyscall :=
  { Names := [name], Action := action }


/-! ## Facts shared by the proofs -/

theorem length_eq_zero_imp (a : String) (h : a.length = 0) : a = "" := by
  cases a with
  | mk l =>
    have hl : l = [] := List.length_eq_zero.mp h
    subst hl
    rfl

theorem append_eq_empty_iff (a b : String) : a ++ b = "" ↔ a = "" ∧ b = "" := by
  constructor
  · intro h
    have hl := congrArg String.length h
    simp only [String.length_append] at hl
    have h0 : ("" : String).length = 0 := rfl
    exact ⟨length_eq_zero_imp a (by omega), length_eq_zero_imp b (by omega)⟩
  · rintro ⟨rfl, rfl⟩
    rfl

/-! ## Start -/

theorem StartOutcome.after_retErr (pre : List Call) (r : StartOutcome) :
    (r.after pre).retErr = r.retErr := rfl

theorem StartOutcome.after_status (pre : List Call) (r : StartOutcome) :
    (r.after pre).status = r.status := rfl

theorem deferTaskDelete_retErr (r : StartOutcome) :
    (startContainer.deferTaskDelete r).retErr = r.retErr := by
  unfold startContainer.deferTaskDelete
  cases h : r.retErr <;> simp [h]

theorem deferTaskDelete_status (r : StartOutcome) :
    (startContainer.deferTaskDelete r).status = r.status := by
  unfold startContainer.deferTaskDelete
  cases h : r.retErr <;> simp

theorem deferClosePipes_retErr (r : StartOutcome) :
    (startContainer.deferClosePipes r).retErr = r.retErr := by
  unfold startContainer.deferClosePipes
  cases h : r.retErr <;> simp [h]

theorem deferClosePipes_status (r : StartOutcome) :
    (startContainer.deferClosePipes r).status = r.status := by
  unfold startContainer.deferClosePipes
  cases h : r.retErr <;> simp

theorem deferSetExited_retErr (d : Deps) (env : StartEnv) (r : StartOutcome) :
    (startContainer.deferSetExited d env r).retErr = r.retErr := by
  unfold startContainer.deferSetExited
  cases h : r.retErr <;> simp [h]

theorem startTask_error_msg (d : Deps) (env : StartEnv) (id : String) (status : Status)
    (e : Error) (h : (startContainer.startTask d env id status).retErr = some e) :
    e.msg ≠ "" := by
  unfold startContainer.startTask at h
  cases ht : env.taskStart with
  | none => simp [ht] at h
  | some err =>
    simp [ht] at h
    subst h
    simp [Errorf, append_eq_empty_iff]

theorem createTask_error_msg (d : Deps) (env : StartEnv) (id : String) (status : Status)
    (e : Error) (h : (startContainer.createTask d env id status).retErr = some e) :
    e.msg ≠ "" := by
  unfold startContainer.createTask at h
  cases hn : env.newTask with
  | none =>
    simp only [hn, StartOutcome.after_retErr, deferTaskDelete_retErr] at h
    exact startTask_error_msg d env id status e h
  | some err =>
    simp [hn] at h
    subst h
    simp [Errorf, append_eq_empty_iff]

theorem startLoggers_error_msg (d : Deps) (env : StartEnv) (id : String)
    (config : ContainerConfig) (sandboxConfig : PodSandboxConfig) (status : Status)
    (e : Error)
    (h : (startContainer.startLoggers d env id config sandboxConfig status).retErr = some e) :
    e.msg ≠ "" := by
  unfold startContainer.startLoggers at h
  split at h
  · simp only at h
    split at h
    · simp at h
      subst h
      simp [Errorf, append_eq_empty_iff]
    · split at h
      · split at h
        · simp at h
          subst h
          simp [Errorf, append_eq_empty_iff]
        · exact createTask_error_msg d env id status e h
      · exact createTask_error_msg d env id status e h
  · exact createTask_error_msg d env id status e h

theorem checkSandbox_error_msg (d : Deps) (env : StartEnv) (id : String)
    (metadata : Metadata) (status : Status) (e : Error)
    (h : (startContainer.checkSandbox d env id metadata status).retErr = some e) :
    e.msg ≠ "" := by
  unfold startContainer.checkSandbox at h
  split at h
  · simp at h
    subst h
    simp [Errorf, append_eq_empty_iff]
  · split at h
    · simp at h
      subst h
      simp [Errorf, append_eq_empty_iff]
    · split at h
      · simp at h
        subst h
        simp [Errorf, append_eq_empty_iff]
      · split at h
        · simp at h
          subst h
          simp [Errorf, append_eq_empty_iff]
        · simp only [StartOutcome.after_retErr, deferClosePipes_retErr] at h
          exact startLoggers_error_msg d env id metadata.Config _ status e h

/-- C1. A container that is not in the created state, or that is being removed, is
rejected by `startContainer`: an error is returned, no collaborator is called (no sandbox
lookup, logger start, task creation, task start or task delete), and the status behind
the pointer is the one passed in. -/
theorem startContainer_rejects_without_effect (d : Deps) (env : StartEnv) (id : String)
    (metadata : Metadata) (status : Status)
    (h : d.State status ≠ ContainerState.CONTAINER_CREATED ∨ status.Removing = true) :
    (startContainer d env id metadata status).retErr ≠ none ∧
    (startContainer d env id metadata status).calls = [] ∧
    (startContainer d env id metadata status).status = status := by
  unfold startContainer
  by_cases hs : d.State status = ContainerState.CONTAINER_CREATED
  · have hr : status.Removing = true := by
      rcases h with h | h
      · exact absurd hs h
      · exact h
    simp [hs, hr]
  · simp [hs]

/-- C1 at a concrete input: the running container `c2`. -/
theorem startContainer_rejects_without_effect_witness :
    (sampleDeps.State runningStatus ≠ ContainerState.CONTAINER_CREATED ∨
      runningStatus.Removing = true) ∧
    (startContainer sampleDeps sampleStartEnv "c2" sampleMetadata runningStatus).retErr ≠ none ∧
    (startContainer sampleDeps sampleStartEnv "c2" sampleMetadata runningStatus).calls = [] ∧
    (startContainer sampleDeps sampleStartEnv "c2" sampleMetadata runningStatus).status
      = runningStatus :=
  ⟨Or.inl (by decide),
   startContainer_rejects_without_effect sampleDeps sampleStartEnv "c2" sampleMetadata
     runningStatus (Or.inl (by decide))⟩


/-- After the precondition checks `startContainer` is the body under the first deferred
function. -/
theorem startContainer_of_checks (d : Deps) (env : StartEnv) (id : String)
    (metadata : Metadata) (status : Status)
    (hs : d.State status = ContainerState.CONTAINER_CREATED) (hr : status.Removing = false) :
    startContainer d env id metadata status
      = startContainer.deferSetExited d env
          (startContainer.checkSandbox d env id metadata status) := by
  unfold startContainer
  simp [hs, hr]

/-- C2, as the code has it. When the precondition checks pass (state created, no removal
in progress) and `startContainer` returns an error, the status has `Pid = 0`,
`FinishedAt` equal to the current time (positive when the clock is), the start-failure
exit code and reason (non-empty when that constant is), and the non-empty text of the
returned error as message; so it is not a created container with a stale pid. -/
theorem startContainer_failure_sets_exit_fields (d : Deps) (env : StartEnv) (id : String)
    (metadata : Metadata) (status : Status) (e : Error)
    (hs : d.State status = ContainerState.CONTAINER_CREATED) (hr : status.Removing = false)
    (hnow : 0 < env.now) (hreason : d.errorStartReason ≠ "")
    (he : (startContainer d env id metadata status).retErr = some e) :
    (startContainer d env id metadata status).status.Pid = 0 ∧
    (startContainer d env id metadata status).status.FinishedAt = env.now ∧
    0 < (startContainer d env id metadata status).status.FinishedAt ∧
    (startContainer d env id metadata status).status.ExitCode = d.errorStartExitCode ∧
    (startContainer d env id metadata status).status.Reason = d.errorStartReason ∧
    (startContainer d env id metadata status).status.Reason ≠ "" ∧
    (startContainer d env id metadata status).status.Message = e.msg ∧
    (startContainer d env id metadata status).status.Message ≠ "" ∧
    ¬ (d.State (startContainer d env id metadata status).status
          = ContainerState.CONTAINER_CREATED ∧
        (startContainer d env id metadata status).status.Pid ≠ 0) := by
  rw [startContainer_of_checks d env id metadata status hs hr] at he ⊢
  rw [deferSetExited_retErr] at he
  have hmsg : e.msg ≠ "" := checkSandbox_error_msg d env id metadata status e he
  unfold startContainer.deferSetExited
  simp [he, hnow, hreason, hmsg]


/-- C2 at a concrete input: the created container `c1`, whose sandbox is not found. -/
theorem startContainer_failure_sets_exit_fields_witness :
    (startContainer sampleDeps
        { sampleStartEnv with
          sandboxStoreGet := fun _ => Except.error { msg := "does not exist", notFound := false } }
        "c1" sampleMetadata createdStatus).status
      = { createdStatus with
          FinishedAt := 1500000000000000000
          ExitCode := 128
          Reason := "StartError"
          Message := "sandbox \"s1\" not found: does not exist" } ∧
    (startContainer sampleDeps
        { sampleStartEnv with
          sandboxStoreGet := fun _ => Except.error { msg := "does not exist", notFound := false } }
        "c1" sampleMetadata createdStatus).status.Message ≠ "" :=
  ⟨by decide,
   (startContainer_failure_sets_exit_fields sampleDeps
      { sampleStartEnv with
        sandboxStoreGet := fun _ => Except.error { msg := "does not exist", notFound := false } }
      "c1" sampleMetadata createdStatus
      (Errorf "sandbox \"s1\" not found: does not exist")
      (by decide) (by decide) (by decide) (by decide) (by decide)).2.2.2.2.2.2.2.1⟩

/-- C2 as stated fails. A start that the precondition checks reject returns an error
and leaves the status as it was: for the container `c3`, which is being removed,
`FinishedAt` stays `0` and reason and message stay empty; for the running container
`c2` the pid stays `42`. -/
theorem failed_start_may_leave_status_untouched :
    (startContainer sampleDeps sampleStartEnv "c3" sampleMetadata removingStatus).retErr ≠ none ∧
    ¬ (0 < (startContainer sampleDeps sampleStartEnv "c3" sampleMetadata
              removingStatus).status.FinishedAt) ∧
    (startContainer sampleDeps sampleStartEnv "c3" sampleMetadata removingStatus).status.Reason
      = "" ∧
    (startContainer sampleDeps sampleStartEnv "c3" sampleMetadata removingStatus).status.Message
      = "" ∧
    (startContainer sampleDeps sampleStartEnv "c2" sampleMetadata runningStatus).retErr ≠ none ∧
    (startContainer sampleDeps sampleStartEnv "c2" sampleMetadata runningStatus).status.Pid
      = 42 := by
  decide



/-- The state accessor modelled from the specification reads `CREATED` only off a status
that has not finished and not started. -/
theorem State_created_imp (s : Status)
    (h : s.State = ContainerState.CONTAINER_CREATED) : s.FinishedAt = 0 ∧ s.StartedAt = 0 := by
  unfold Status.State at h
  by_cases hf : s.FinishedAt = 0
  · by_cases hst : s.StartedAt = 0
    · exact ⟨hf, hst⟩
    · simp [hf, hst] at h
  · simp [hf] at h

/-- When the checks pass, the sandbox is found with a running task, the loggers start,
and the task is created and started, `startContainer` returns no error and only sets
`Pid` and `StartedAt`. -/
theorem startContainer_success (d : Deps) (env : StartEnv) (id : String)
    (metadata : Metadata) (status : Status) (sandbox : Sandbox)
    (hs : d.State status = ContainerState.CONTAINER_CREATED) (hr : status.Removing = false)
    (hsb : env.sandboxStoreGet metadata.SandboxID = Except.ok sandbox)
    (htask : env.sandboxTask = none)
    (hrun : env.sandboxTaskStatus = Except.ok ProcessStatus.Running)
    (hlog : ∀ logPath stream, env.loggerStart logPath stream = none)
    (hnew : env.newTask = none) (hstart : env.taskStart = none) :
    (startContainer d env id metadata status).retErr = none ∧
    (startContainer d env id metadata status).status
      = { status with Pid := env.taskPid, StartedAt := env.now } := by
  have hcreate : startContainer.createTask d env id status
      = { retErr := none, status := { status with Pid := env.taskPid, StartedAt := env.now },
          calls := [Call.newTask, Call.taskStart] } := by
    simp [startContainer.createTask, startContainer.startTask, startContainer.deferTaskDelete,
      StartOutcome.after, hnew, hstart]
  rw [startContainer_of_checks d env id metadata status hs hr]
  unfold startContainer.deferSetExited startContainer.checkSandbox
  simp only [hsb, htask, hrun]
  unfold startContainer.startLoggers
  by_cases hp : metadata.Config.LogPath = ""
  · simp [hp, hcreate, startContainer.deferClosePipes, StartOutcome.after]
  · by_cases ht : metadata.Config.Tty = true
    · simp [hp, ht, hlog, hcreate, startContainer.deferClosePipes, StartOutcome.after]
    · simp [hp, ht, hlog, hcreate, startContainer.deferClosePipes, StartOutcome.after]

/-- C3. For a container found in the store in state `CREATED` and not being removed,
whose sandbox is found and reports a running task: if the loggers start and the task is
created and started (with a positive pid, at a non-zero clock reading), then
`startContainer` and `StartContainer` return success, and the resulting status, which is
the one committed to the store, is in state `RUNNING`, has `Pid` equal to the task's pid
(positive), `StartedAt` equal to the current time, and `FinishedAt`, `ExitCode`,
`Reason`, `Message` and `Removing` as before. The state accessor and the update are the
ones modelled from the specification. -/
theorem start_success (d : Deps) (env : StartEnv) (c : criContainerdService)
    (containerID : String) (container : Container) (sandbox : Sandbox)
    (hState : d.State = Status.State) (hCommit : d.commit = specCommit)
    (hget : d.Get c.containerStore containerID = Except.ok container)
    (hs : d.State container.Status = ContainerState.CONTAINER_CREATED)
    (hr : container.Status.Removing = false)
    (hsb : env.sandboxStoreGet container.Metadata.SandboxID = Except.ok sandbox)
    (htask : env.sandboxTask = none)
    (hrun : env.sandboxTaskStatus = Except.ok ProcessStatus.Running)
    (hlog : ∀ logPath stream, env.loggerStart logPath stream = none)
    (hnew : env.newTask = none) (hstart : env.taskStart = none)
    (hpid : 0 < env.taskPid) (hnow : env.now ≠ 0) :
    (startContainer d env container.ID container.Metadata container.Status).retErr = none ∧
    (StartContainer d env c containerID).ret = Except.ok () ∧
    (StartContainer d env c containerID).service.containerStore
      = c.containerStore.setStatus container.ID
          (startContainer d env container.ID container.Metadata container.Status).status ∧
    d.State (startContainer d env container.ID container.Metadata container.Status).status
      = ContainerState.CONTAINER_RUNNING ∧
    (startContainer d env container.ID container.Metadata container.Status).status.Pid
      = env.taskPid ∧
    0 < (startContainer d env container.ID container.Metadata container.Status).status.Pid ∧
    (startContainer d env container.ID container.Metadata container.Status).status.StartedAt
      = env.now ∧
    (startContainer d env container.ID container.Metadata container.Status).status.FinishedAt
      = container.Status.FinishedAt ∧
    (startContainer d env container.ID container.Metadata container.Status).status.ExitCode
      = container.Status.ExitCode ∧
    (startContainer d env container.ID container.Metadata container.Status).status.Reason
      = container.Status.Reason ∧
    (startContainer d env container.ID container.Metadata container.Status).status.Message
      = container.Status.Message ∧
    (startContainer d env container.ID container.Metadata container.Status).status.Removing
      = container.Status.Removing := by
  obtain ⟨herr, hstatus⟩ := startContainer_success d env container.ID container.Metadata
    container.Status sandbox hs hr hsb htask hrun hlog hnew hstart
  have hfin : container.Status.FinishedAt = 0 := by
    rw [hState] at hs
    exact (State_created_imp container.Status hs).1
  refine ⟨herr, ?_, ?_, ?_, ?_, ?_, ?_, ?_, ?_, ?_, ?_, ?_⟩
  · unfold StartContainer
    simp [hget, herr, Update, StartContainer.transaction, hCommit, specCommit]
  · unfold StartContainer
    simp [hget, herr, Update, StartContainer.transaction, hCommit, specCommit]
  · rw [hstatus, hState]
    simp [Status.State, hfin, hnow]
  all_goals simp [hstatus, hpid]

/-- C3 at a concrete input: starting the created container `c1` of the sample service. -/
theorem start_success_witness :
    (StartContainer sampleDeps sampleStartEnv sampleService "c1").ret = Except.ok () ∧
    sampleDeps.State (startContainer sampleDeps sampleStartEnv "c1" sampleMetadata
        createdStatus).status = ContainerState.CONTAINER_RUNNING ∧
    (startContainer sampleDeps sampleStartEnv "c1" sampleMetadata createdStatus).status.Pid
      = 4242 :=
  have h := start_success sampleDeps sampleStartEnv sampleService "c1"
    { ID := "c1", Metadata := sampleMetadata, Status := createdStatus }
    { Config := { LogDirectory := "/var/log/pods/s1" } }
    rfl rfl rfl (by decide) rfl rfl rfl rfl (fun _ _ => rfl) rfl rfl (by decide) (by decide)
  ⟨h.2.1, h.2.2.2.1, h.2.2.2.2.1⟩

/-- C4. The transaction function that `StartContainer` hands to `Status.Update` returns,
for every outcome of `startContainer`, the status as `startContainer` left it together
with a nil error, so that the update is asked to commit that status (and the update of
the specification stores it); and whenever `startContainer` returned an error,
`StartContainer` returns exactly that error, whatever the update itself returns. -/
theorem StartContainer_commits_and_returns_start_error (d : Deps) (env : StartEnv)
    (c : criContainerdService) (containerID : String) (container : Container)
    (hget : d.Get c.containerStore containerID = Except.ok container) :
    (∀ status : Status,
      StartContainer.transaction d env container status
        = ((startContainer d env container.ID container.Metadata status).status, none)) ∧
    Update d (StartContainer.transaction d env container) container.Status
      = d.commit container.Status
          (startContainer d env container.ID container.Metadata container.Status).status none ∧
    (d.commit = specCommit →
      (StartContainer d env c containerID).service.containerStore
        = c.containerStore.setStatus container.ID
            (startContainer d env container.ID container.Metadata container.Status).status) ∧
    (∀ e : Error,
      (startContainer d env container.ID container.Metadata container.Status).retErr = some e →
      (StartContainer d env c containerID).ret = Except.error e) := by
  refine ⟨fun _ => rfl, rfl, ?_, ?_⟩
  · intro hc
    unfold StartContainer
    simp only [hget]
    cases hrun : (startContainer d env container.ID container.Metadata container.Status).retErr
      <;> simp [Update, StartContainer.transaction, hc, specCommit]
  · intro e he
    unfold StartContainer
    simp [hget, he]

/-- C4 at a concrete input: the sandbox of `c1` is not found, and an update that reports
an error of its own; `StartContainer` returns the error of `startContainer`. -/
theorem StartContainer_commits_and_returns_start_error_witness :
    (StartContainer
        { sampleDeps with commit := fun _ new _ => (new, some (Errorf "checkpoint failed")) }
        { sampleStartEnv with
          sandboxStoreGet := fun _ => Except.error { msg := "does not exist", notFound := false } }
        sampleService "c1").ret
      = Except.error (Errorf "sandbox \"s1\" not found: does not exist") :=
  (StartContainer_commits_and_returns_start_error
      { sampleDeps with commit := fun _ new _ => (new, some (Errorf "checkpoint failed")) }
      { sampleStartEnv with
        sandboxStoreGet := fun _ => Except.error { msg := "does not exist", notFound := false } }
      sampleService "c1"
      { ID := "c1", Metadata := sampleMetadata, Status := createdStatus } rfl).2.2.2
    (Errorf "sandbox \"s1\" not found: does not exist") (by decide)


/-- The calls made to the loggers when all of them start: none without a log path, the
stdout logger alone with a tty, both otherwise. -/
theorem startLoggers_calls_of_task_start_failure (d : Deps) (env : StartEnv) (id : String)
    (config : ContainerConfig) (sandboxConfig : PodSandboxConfig) (status : Status) (e : Error)
    (hlog : ∀ logPath stream, env.loggerStart logPath stream = none)
    (hnew : env.newTask = none) (hstart : env.taskStart = some e) :
    startContainer.startLoggers d env id config sandboxConfig status
      = { retErr := some (Errorf ("failed to start containerd task " ++ d.quote id ++ ": "
            ++ e.msg)),
          status := status,
          calls :=
            (if config.LogPath = "" then []
             else if config.Tty = true then
               [Call.loggerStart (d.filepathJoin sandboxConfig.LogDirectory config.LogPath)
                  StreamType.Stdout]
             else
               [Call.loggerStart (d.filepathJoin sandboxConfig.LogDirectory config.LogPath)
                  StreamType.Stdout,
                Call.loggerStart (d.filepathJoin sandboxConfig.LogDirectory config.LogPath)
                  StreamType.Stderr])
            ++ [Call.newTask, Call.taskStart, Call.taskDelete] } := by
  have hcreate : startContainer.createTask d env id status
      = { retErr := some (Errorf ("failed to start containerd task " ++ d.quote id ++ ": "
            ++ e.msg)),
          status := status,
          calls := [Call.newTask, Call.taskStart, Call.taskDelete] } := by
    simp [startContainer.createTask, startContainer.startTask, startContainer.deferTaskDelete,
      StartOutcome.after, hnew, hstart]
  unfold startContainer.startLoggers
  by_cases hp : config.LogPath = ""
  · simp [hp, hcreate]
  · by_cases ht : config.Tty = true
    · simp [hp, ht, hlog, hcreate, StartOutcome.after]
    · simp [hp, ht, hlog, hcreate, StartOutcome.after]

/-- A task delete is only among the calls of `startContainer` when the task was created. -/
theorem taskDelete_mem_calls_imp (d : Deps) (env : StartEnv) (id : String)
    (metadata : Metadata) (status : Status)
    (h : Call.taskDelete ∈ (startContainer d env id metadata status).calls) :
    env.newTask = none := by
  have hcreate : ∀ st : Status,
      Call.taskDelete ∈ (startContainer.createTask d env id st).calls → env.newTask = none := by
    intro st hc
    unfold startContainer.createTask at hc
    cases hn : env.newTask with
    | none => rfl
    | some err => simp [hn] at hc
  have hlogs : ∀ (config : ContainerConfig) (sc : PodSandboxConfig) (st : Status),
      Call.taskDelete ∈ (startContainer.startLoggers d env id config sc st).calls →
      env.newTask = none := by
    intro config sc st hc
    unfold startContainer.startLoggers at hc
    split at hc
    · simp only at hc
      split at hc
      · simp at hc
      · split at hc
        · split at hc
          · simp at hc
          · simp only [StartOutcome.after, List.mem_append, List.mem_cons] at hc
            rcases hc with hc | hc
            · simp at hc
            · exact hcreate st hc
        · simp only [StartOutcome.after, List.mem_append, List.mem_cons] at hc
          rcases hc with hc | hc
          · simp at hc
          · exact hcreate st hc
    · exact hcreate st hc
  have hpipes : ∀ r : StartOutcome,
      Call.taskDelete ∈ (startContainer.deferClosePipes r).calls → Call.taskDelete ∈ r.calls := by
    intro r hc
    unfold startContainer.deferClosePipes at hc
    cases hr : r.retErr with
    | none => simpa [hr] using hc
    | some e => simpa [hr] using hc
  have hexit : ∀ r : StartOutcome,
      (startContainer.deferSetExited d env r).calls = r.calls := by
    intro r
    unfold startContainer.deferSetExited
    cases hr : r.retErr <;> simp
  unfold startContainer at h
  split at h
  · simp at h
  · split at h
    · simp at h
    · rw [hexit] at h
      unfold startContainer.checkSandbox at h
      split at h
      · simp at h
      · split at h
        · simp at h
        · split at h
          · simp at h
          · split at h
            · simp at h
            · simp only [StartOutcome.after, List.mem_append, List.mem_cons] at h
              rcases h with h | h
              · simp at h
              · exact hlogs _ _ _ (hpipes _ h)

/-- C11. When the checks pass, the sandbox runs, the loggers start and the task is
created, but the task start fails: `startContainer` deletes the task exactly once, after
the failed start, then closes the read ends of the stdout and the stderr pipe; the error
it returns is the task-start failure under the context text of `startContainer`, and its
text is recorded as the status message. The outcome is the same whatever the task delete
returns. When the creation of the task fails, no task delete is among the calls. -/
theorem start_failure_rolls_back_task (d : Deps) (env : StartEnv) (id : String)
    (metadata : Metadata) (status : Status) :
    (∀ (sandbox : Sandbox) (e : Error),
      d.State status = ContainerState.CONTAINER_CREATED → status.Removing = false →
      env.sandboxStoreGet metadata.SandboxID = Except.ok sandbox →
      env.sandboxTask = none →
      env.sandboxTaskStatus = Except.ok ProcessStatus.Running →
      (∀ logPath stream, env.loggerStart logPath stream = none) →
      env.newTask = none → env.taskStart = some e →
      (startContainer d env id metadata status).retErr
        = some (Errorf ("failed to start containerd task " ++ d.quote id ++ ": " ++ e.msg)) ∧
      (startContainer d env id metadata status).status.Message
        = "failed to start containerd task " ++ d.quote id ++ ": " ++ e.msg ∧
      (startContainer d env id metadata status).calls
        = [Call.sandboxStoreGet metadata.SandboxID, Call.sandboxTask, Call.sandboxTaskStatus]
          ++ (if metadata.Config.LogPath = "" then []
              else if metadata.Config.Tty = true then
                [Call.loggerStart
                   (d.filepathJoin sandbox.Config.LogDirectory metadata.Config.LogPath)
                   StreamType.Stdout]
              else
                [Call.loggerStart
                   (d.filepathJoin sandbox.Config.LogDirectory metadata.Config.LogPath)
                   StreamType.Stdout,
                 Call.loggerStart
                   (d.filepathJoin sandbox.Config.LogDirectory metadata.Config.LogPath)
                   StreamType.Stderr])
          ++ [Call.newTask, Call.taskStart, Call.taskDelete,
              Call.closeStdoutReader, Call.closeStderrReader] ∧
      (startContainer d env id metadata status).calls.count Call.taskDelete = 1 ∧
      (startContainer d env id metadata status).calls.count Call.closeStdoutReader = 1 ∧
      (startContainer d env id metadata status).calls.count Call.closeStderrReader = 1) ∧
    (∀ del : Option Error,
      startContainer d { env with taskDelete := del } id metadata status
        = startContainer d env id metadata status) ∧
    (∀ err : Error, env.newTask = some err →
      Call.taskDelete ∉ (startContainer d env id metadata status).calls) := by
  refine ⟨?_, fun _ => rfl, ?_⟩
  · intro sandbox e hs hr hsb htask hrun hlog hnew hstart
    have hcalls : startContainer d env id metadata status
        = { retErr := some (Errorf ("failed to start containerd task " ++ d.quote id ++ ": "
              ++ e.msg)),
            status :=
              { status with
                Pid := 0
                FinishedAt := env.now
                ExitCode := d.errorStartExitCode
                Reason := d.errorStartReason
                Message := "failed to start containerd task " ++ d.quote id ++ ": " ++ e.msg },
            calls :=
              [Call.sandboxStoreGet metadata.SandboxID, Call.sandboxTask,
                Call.sandboxTaskStatus]
              ++ (if metadata.Config.LogPath = "" then []
                  else if metadata.Config.Tty = true then
                    [Call.loggerStart
                       (d.filepathJoin sandbox.Config.LogDirectory metadata.Config.LogPath)
                       StreamType.Stdout]
                  else
                    [Call.loggerStart
                       (d.filepathJoin sandbox.Config.LogDirectory metadata.Config.LogPath)
                       StreamType.Stdout,
                     Call.loggerStart
                       (d.filepathJoin sandbox.Config.LogDirectory metadata.Config.LogPath)
                       StreamType.Stderr])
              ++ [Call.newTask, Call.taskStart, Call.taskDelete,
                  Call.closeStdoutReader, Call.closeStderrReader] } := by
      rw [startContainer_of_checks d env id metadata status hs hr]
      unfold startContainer.deferSetExited startContainer.checkSandbox
      simp only [hsb, htask, hrun]
      rw [startLoggers_calls_of_task_start_failure d env id metadata.Config sandbox.Config
        status e hlog hnew hstart]
      simp [startContainer.deferClosePipes, StartOutcome.after, Errorf]
    rw [hcalls]
    refine ⟨rfl, rfl, rfl, ?_, ?_, ?_⟩
    · by_cases hp : metadata.Config.LogPath = ""
      · simp [hp, List.count_cons]
      · by_cases ht : metadata.Config.Tty = true
        · simp [hp, ht, List.count_cons]
        · simp [hp, ht, List.count_cons]
    · by_cases hp : metadata.Config.LogPath = ""
      · simp [hp, List.count_cons]
      · by_cases ht : metadata.Config.Tty = true
        · simp [hp, ht, List.count_cons]
        · simp [hp, ht, List.count_cons]
    · by_cases hp : metadata.Config.LogPath = ""
      · simp [hp, List.count_cons]
      · by_cases ht : metadata.Config.Tty = true
        · simp [hp, ht, List.count_cons]
        · simp [hp, ht, List.count_cons]
  · intro err hnew hmem
    have := taskDelete_mem_calls_imp d env id metadata status hmem
    rw [hnew] at this
    cases this

/-- C11 at a concrete input: starting `c1` when the task start fails and the task delete
fails too. -/
theorem start_failure_rolls_back_task_witness :
    (startContainer sampleDeps
        { sampleStartEnv with
          taskStart := some { msg := "exec format error", notFound := false }
          taskDelete := some { msg := "task busy", notFound := false } }
        "c1" sampleMetadata createdStatus).retErr
      = some (Errorf "failed to start containerd task \"c1\": exec format error") ∧
    (startContainer sampleDeps
        { sampleStartEnv with
          taskStart := some { msg := "exec format error", notFound := false }
          taskDelete := some { msg := "task busy", notFound := false } }
        "c1" sampleMetadata createdStatus).calls.count Call.taskDelete = 1 :=
  have h := (start_failure_rolls_back_task sampleDeps
      { sampleStartEnv with
        taskStart := some { msg := "exec format error", notFound := false }
        taskDelete := some { msg := "task busy", notFound := false } }
      "c1" sampleMetadata createdStatus).1
    { Config := { LogDirectory := "/var/log/pods/s1" } }
    { msg := "exec format error", notFound := false }
    (by decide) rfl rfl rfl rfl (fun _ _ => rfl) rfl rfl
  ⟨h.1, h.2.2.2.1⟩

/-! ## Remove -/

theorem Outcome.after_ret {α : Type} (pre : List Call) (r : Outcome α) :
    (r.after pre).ret = r.ret := rfl

theorem Outcome.after_service {α : Type} (pre : List Call) (r : Outcome α) :
    (r.after pre).service = r.service := rfl

theorem Outcome.after_calls {α : Type} (pre : List Call) (r : Outcome α) :
    (r.after pre).calls = pre ++ r.calls := rfl

/-- The two ways lines 66-89 of `RemoveContainer` end: with an error, the service
untouched and only delete calls made; or with success after the store delete and the
name index release. -/
theorem deleteContainer_cases (d : Deps) (env : RemoveEnv) (c : criContainerdService)
    (id : String) :
    ((∃ e, (RemoveContainer.deleteContainer d env c id).ret = Except.error e) ∧
      (RemoveContainer.deleteContainer d env c id).service = c ∧
      ((RemoveContainer.deleteContainer d env c id).calls = [Call.containerdDelete id] ∨
       (RemoveContainer.deleteContainer d env c id).calls
          = [Call.containerdDelete id, Call.checkpointDelete id] ∨
       (RemoveContainer.deleteContainer d env c id).calls
          = [Call.containerdDelete id, Call.checkpointDelete id,
             Call.ensureRemoveAll (d.getContainerRootDir c.RootDir id)])) ∨
    ((RemoveContainer.deleteContainer d env c id).ret = Except.ok () ∧
      (RemoveContainer.deleteContainer d env c id).service
        = { c with
            containerStore := d.Delete c.containerStore id
            containerNameIndex := d.ReleaseByKey c.containerNameIndex id } ∧
      (RemoveContainer.deleteContainer d env c id).calls
        = [Call.containerdDelete id, Call.checkpointDelete id,
           Call.ensureRemoveAll (d.getContainerRootDir c.RootDir id),
           Call.containerStoreDelete id, Call.nameIndexReleaseByKey id]) := by
  have hart :
      ((∃ e, (RemoveContainer.removeArtifacts d env c id).ret = Except.error e) ∧
        (RemoveContainer.removeArtifacts d env c id).service = c ∧
        ((RemoveContainer.removeArtifacts d env c id).calls = [Call.checkpointDelete id] ∨
         (RemoveContainer.removeArtifacts d env c id).calls
            = [Call.checkpointDelete id,
               Call.ensureRemoveAll (d.getContainerRootDir c.RootDir id)])) ∨
      ((RemoveContainer.removeArtifacts d env c id).ret = Except.ok () ∧
        (RemoveContainer.removeArtifacts d env c id).service
          = { c with
              containerStore := d.Delete c.containerStore id
              containerNameIndex := d.ReleaseByKey c.containerNameIndex id } ∧
        (RemoveContainer.removeArtifacts d env c id).calls
          = [Call.checkpointDelete id,
             Call.ensureRemoveAll (d.getContainerRootDir c.RootDir id),
             Call.containerStoreDelete id, Call.nameIndexReleaseByKey id]) := by
    unfold RemoveContainer.removeArtifacts
    cases hck : env.checkpointDelete with
    | some err => simp
    | none =>
      cases hrm : env.ensureRemoveAll (d.getContainerRootDir c.RootDir id) with
      | some err => simp [hrm]
      | none => simp [hrm]
  have hstep :
      ((∃ e, ((RemoveContainer.removeArtifacts d env c id).after
                [Call.containerdDelete id]).ret = Except.error e) ∧
        ((RemoveContainer.removeArtifacts d env c id).after [Call.containerdDelete id]).service
          = c ∧
        (((RemoveContainer.removeArtifacts d env c id).after [Call.containerdDelete id]).calls
            = [Call.containerdDelete id] ∨
         ((RemoveContainer.removeArtifacts d env c id).after [Call.containerdDelete id]).calls
            = [Call.containerdDelete id, Call.checkpointDelete id] ∨
         ((RemoveContainer.removeArtifacts d env c id).after [Call.containerdDelete id]).calls
            = [Call.containerdDelete id, Call.checkpointDelete id,
               Call.ensureRemoveAll (d.getContainerRootDir c.RootDir id)])) ∨
      (((RemoveContainer.removeArtifacts d env c id).after [Call.containerdDelete id]).ret
          = Except.ok () ∧
        ((RemoveContainer.removeArtifacts d env c id).after [Call.containerdDelete id]).service
          = { c with
              containerStore := d.Delete c.containerStore id
              containerNameIndex := d.ReleaseByKey c.containerNameIndex id } ∧
        ((RemoveContainer.removeArtifacts d env c id).after [Call.containerdDelete id]).calls
          = [Call.containerdDelete id, Call.checkpointDelete id,
             Call.ensureRemoveAll (d.getContainerRootDir c.RootDir id),
             Call.containerStoreDelete id, Call.nameIndexReleaseByKey id]) := by
    simp only [Outcome.after_ret, Outcome.after_service, Outcome.after_calls]
    rcases hart with ⟨he, hsv, hc | hc⟩ | ⟨hok, hsv, hc⟩
    · exact Or.inl ⟨he, hsv, Or.inr (Or.inl (by rw [hc]; rfl))⟩
    · exact Or.inl ⟨he, hsv, Or.inr (Or.inr (by rw [hc]; rfl))⟩
    · exact Or.inr ⟨hok, hsv, by rw [hc]; rfl⟩
  unfold RemoveContainer.deleteContainer
  cases hcd : env.containerdDelete with
  | none => exact hstep
  | some err =>
    by_cases hnf : err.notFound = true
    · simp only [hnf, Bool.not_true, Bool.false_eq_true, if_false]
      exact hstep
    · simp [hnf]

/-- In the store modelled from the specification, a deleted ID is not found. -/
theorem Store.Get_Delete (e : Error) (s : Store) (id : String) :
    Store.Get e (Store.Delete s id) id = Except.error e := by
  unfold Store.Get Store.Delete
  have h : (List.filter (fun c : Container => decide (c.ID ≠ id)) s).find?
      (fun c => decide (c.ID = id)) = none := by
    rw [List.find?_eq_none]
    intro x hx
    have := (List.mem_filter.mp hx).2
    simpa using this
  rw [h]

/-- In the store modelled from the specification, the container found under an ID has
that ID. -/
theorem Store.Get_ok_ID (e : Error) (s : Store) (id : String) (container : Container)
    (h : Store.Get e s id = Except.ok container) : container.ID = id := by
  unfold Store.Get at h
  cases hf : s.find? (fun c => decide (c.ID = id)) with
  | none => simp [hf] at h
  | some c0 =>
    simp [hf] at h
    subst h
    simpa using List.find?_some hf

/-- C5. When the container store reports the ID as not existing, `RemoveContainer`
returns the empty response with a nil error, leaves the service as it is and makes no
call besides the lookup: no status update, containerd delete, checkpoint delete,
directory removal, store delete or name index release. Any other lookup error is
returned as a failure carrying it. With the store of the specification, a
`RemoveContainer` that follows a successful one on the same ID returns success, leaves
the service as it is and makes no call besides the lookup. -/
theorem RemoveContainer_unknown_id (d : Deps) (env : RemoveEnv) (c : criContainerdService)
    (containerID : String) :
    (d.Get c.containerStore containerID = Except.error d.ErrNotExist →
      (RemoveContainer d env c containerID).ret = Except.ok () ∧
      (RemoveContainer d env c containerID).service = c ∧
      (RemoveContainer d env c containerID).calls = [Call.containerStoreGet containerID]) ∧
    (∀ err : Error, d.Get c.containerStore containerID = Except.error err →
      err ≠ d.ErrNotExist →
      (RemoveContainer d env c containerID).ret
        = Except.error (Errorf ("an error occurred when try to find container "
            ++ d.quote containerID ++ ": " ++ err.msg)) ∧
      (RemoveContainer d env c containerID).service = c ∧
      (RemoveContainer d env c containerID).calls = [Call.containerStoreGet containerID]) ∧
    (d.Get = Store.Get d.ErrNotExist → d.Delete = Store.Delete →
      (RemoveContainer d env c containerID).ret = Except.ok () →
      ∀ env2 : RemoveEnv,
        (RemoveContainer d env2 (RemoveContainer d env c containerID).service containerID).ret
          = Except.ok () ∧
        (RemoveContainer d env2 (RemoveContainer d env c containerID).service
            containerID).service
          = (RemoveContainer d env c containerID).service ∧
        (RemoveContainer d env2 (RemoveContainer d env c containerID).service
            containerID).calls
          = [Call.containerStoreGet containerID]) := by
  have hnot : ∀ (env0 : RemoveEnv) (c0 : criContainerdService),
      d.Get c0.containerStore containerID = Except.error d.ErrNotExist →
      (RemoveContainer d env0 c0 containerID).ret = Except.ok () ∧
      (RemoveContainer d env0 c0 containerID).service = c0 ∧
      (RemoveContainer d env0 c0 containerID).calls = [Call.containerStoreGet containerID] := by
    intro env0 c0 h
    unfold RemoveContainer
    simp [h]
  refine ⟨hnot env c, ?_, ?_⟩
  · intro err h hne
    unfold RemoveContainer
    simp [h, hne]
  · intro hG hD hok env2
    apply hnot env2
    cases hget : d.Get c.containerStore containerID with
    | error err =>
      have herr : err = d.ErrNotExist := by
        by_contra hne
        unfold RemoveContainer at hok
        simp [hget, hne] at hok
      unfold RemoveContainer
      simp only [hget, herr]
      simp
      rw [hget, herr]
    | ok container =>
      have hid : container.ID = containerID := by
        rw [hG] at hget
        exact Store.Get_ok_ID _ _ _ _ hget
      unfold RemoveContainer at hok ⊢
      simp only [hget] at hok ⊢
      cases hset : (setContainerRemoving d container.Status).2 with
      | some err => simp [hset] at hok
      | none =>
        simp only [hset, Outcome.after_ret, Outcome.after_service] at hok ⊢
        rcases deleteContainer_cases d env
          { c with containerStore :=
              c.containerStore.setStatus container.ID (setContainerRemoving d container.Status).1 }
          container.ID with ⟨⟨e, he⟩, _, _⟩ | ⟨hdok, hsv, _⟩
        · unfold RemoveContainer.deferReset at hok
          simp [he] at hok
        · unfold RemoveContainer.deferReset
          simp only [hdok, hsv]
          rw [hG, hD, hid]
          exact Store.Get_Delete _ _ _

/-- C5 at a concrete input: removing the created container `c1` of the sample service
and then removing it again. -/
theorem RemoveContainer_unknown_id_witness :
    (RemoveContainer sampleDeps
        { containerdDelete := none, checkpointDelete := none, ensureRemoveAll := fun _ => none }
        (RemoveContainer sampleDeps
          { containerdDelete := none, checkpointDelete := none,
            ensureRemoveAll := fun _ => none }
          sampleService "c1").service "c1").calls
      = [Call.containerStoreGet "c1"] :=
  ((RemoveContainer_unknown_id sampleDeps
      { containerdDelete := none, checkpointDelete := none, ensureRemoveAll := fun _ => none }
      sampleService "c1").2.2 rfl rfl rfl
      { containerdDelete := none, checkpointDelete := none,
        ensureRemoveAll := fun _ => none }).2.2

/-- C6. The transaction of `setContainerRemoving` fails exactly when the state is
`RUNNING` or `Removing` is already set, and then returns the status unchanged;
otherwise it returns the status with `Removing` set and every other field unchanged. -/
theorem setContainerRemoving_transaction_spec (d : Deps) (status : Status) :
    (((setContainerRemoving.transaction d status).2 ≠ none) ↔
      (d.State status = ContainerState.CONTAINER_RUNNING ∨ status.Removing = true)) ∧
    ((setContainerRemoving.transaction d status).2 ≠ none →
      (setContainerRemoving.transaction d status).1 = status) ∧
    ((setContainerRemoving.transaction d status).2 = none →
      (setContainerRemoving.transaction d status).1 = { status with Removing := true }) := by
  unfold setContainerRemoving.transaction
  by_cases hs : d.State status = ContainerState.CONTAINER_RUNNING
  · simp [hs]
  · by_cases hr : status.Removing = true
    · simp [hs, hr]
    · simp [hs, hr]


/-- C6 at a concrete input: on the created container the transaction sets the flag, and
on the running container it fails and returns the status as it was. -/
theorem setContainerRemoving_transaction_spec_witness :
    (setContainerRemoving.transaction sampleDeps createdStatus).1
      = { createdStatus with Removing := true } ∧
    (setContainerRemoving.transaction sampleDeps runningStatus).1 = runningStatus :=
  ⟨(setContainerRemoving_transaction_spec sampleDeps createdStatus).2.2 rfl,
   (setContainerRemoving_transaction_spec sampleDeps runningStatus).2.1 (by decide)⟩


/-- Once the container is found and the removing flag is set, `RemoveContainer` is lines
66-89 under the deferred reset. -/
theorem RemoveContainer_of_set (d : Deps) (env : RemoveEnv) (c : criContainerdService)
    (containerID : String) (container : Container)
    (hget : d.Get c.containerStore containerID = Except.ok container)
    (hset : (setContainerRemoving d container.Status).2 = none) :
    RemoveContainer d env c containerID
      = (RemoveContainer.deferReset d container.ID (setContainerRemoving d container.Status).1
          (RemoveContainer.deleteContainer d env
            { c with containerStore :=
                (c.containerStore.setStatus container.ID
                  (setContainerRemoving d container.Status).1) }
            container.ID)).after
          [Call.containerStoreGet containerID,
           Call.statusUpdate container.ID (setContainerRemoving d container.Status).1] := by
  unfold RemoveContainer
  simp only [hget, hset]

/-- On a status that is not running and not being removed, `setContainerRemoving` asks
the update to commit the status with `Removing` set. -/
theorem setContainerRemoving_of_idle (d : Deps) (status : Status)
    (hs : d.State status ≠ ContainerState.CONTAINER_RUNNING) (hr : status.Removing = false) :
    setContainerRemoving d status
      = d.commit status { status with Removing := true } none := by
  unfold setContainerRemoving Update setContainerRemoving.transaction
  simp [hs, hr]

/-- C7. For a container that is found, not running and not being removed, and whose
removing flag has been set: if the containerd delete fails with an error other than
not-found, or the checkpoint delete fails, or the removal of the root directory fails,
then `RemoveContainer` returns an error that carries the text of that failure, whatever
the reset itself returns; the last call is the update running the reset transaction,
which clears `Removing` and changes no other field; and neither the store delete nor the
name index release is made, the store and the name index keeping their entries. -/
theorem RemoveContainer_failure_resets_removing (d : Deps) (env : RemoveEnv)
    (c : criContainerdService) (containerID : String) (container : Container)
    (hget : d.Get c.containerStore containerID = Except.ok container)
    (hs : d.State container.Status ≠ ContainerState.CONTAINER_RUNNING)
    (hr : container.Status.Removing = false)
    (hset : (setContainerRemoving d container.Status).2 = none) :
    setContainerRemoving d container.Status
      = d.commit container.Status { container.Status with Removing := true } none ∧
    (∀ s : Status,
      resetContainerRemoving.transaction s = ({ s with Removing := false }, none)) ∧
    resetContainerRemoving d (setContainerRemoving d container.Status).1
      = d.commit (setContainerRemoving d container.Status).1
          { (setContainerRemoving d container.Status).1 with Removing := false } none ∧
    (∀ e : Error, env.containerdDelete = some e → e.notFound = false →
      (RemoveContainer d env c containerID).ret
        = Except.error (Errorf ("failed to delete containerd container "
            ++ d.quote container.ID ++ ": " ++ e.msg)) ∧
      (RemoveContainer d env c containerID).calls
        = [Call.containerStoreGet containerID,
           Call.statusUpdate container.ID (setContainerRemoving d container.Status).1,
           Call.containerdDelete container.ID,
           Call.statusUpdate container.ID
             (resetContainerRemoving d (setContainerRemoving d container.Status).1).1]) ∧
    (∀ e : Error, (∀ e0, env.containerdDelete = some e0 → e0.notFound = true) →
      env.checkpointDelete = some e →
      (RemoveContainer d env c containerID).ret
        = Except.error (Errorf ("failed to delete container checkpoint for "
            ++ d.quote container.ID ++ ": " ++ e.msg)) ∧
      (RemoveContainer d env c containerID).calls
        = [Call.containerStoreGet containerID,
           Call.statusUpdate container.ID (setContainerRemoving d container.Status).1,
           Call.containerdDelete container.ID,
           Call.checkpointDelete container.ID,
           Call.statusUpdate container.ID
             (resetContainerRemoving d (setContainerRemoving d container.Status).1).1]) ∧
    (∀ e : Error, (∀ e0, env.containerdDelete = some e0 → e0.notFound = true) →
      env.checkpointDelete = none →
      env.ensureRemoveAll (d.getContainerRootDir c.RootDir container.ID) = some e →
      (RemoveContainer d env c containerID).ret
        = Except.error (Errorf ("failed to remove container root directory "
            ++ d.quote (d.getContainerRootDir c.RootDir container.ID) ++ ": " ++ e.msg)) ∧
      (RemoveContainer d env c containerID).calls
        = [Call.containerStoreGet containerID,
           Call.statusUpdate container.ID (setContainerRemoving d container.Status).1,
           Call.containerdDelete container.ID,
           Call.checkpointDelete container.ID,
           Call.ensureRemoveAll (d.getContainerRootDir c.RootDir container.ID),
           Call.statusUpdate container.ID
             (resetContainerRemoving d (setContainerRemoving d container.Status).1).1]) ∧
    (∀ e : Error, (RemoveContainer d env c containerID).ret = Except.error e →
      (∀ k, Call.containerStoreDelete k ∉ (RemoveContainer d env c containerID).calls) ∧
      (∀ k, Call.nameIndexReleaseByKey k ∉ (RemoveContainer d env c containerID).calls) ∧
      (RemoveContainer d env c containerID).service.containerNameIndex
        = c.containerNameIndex ∧
      (RemoveContainer d env c containerID).service.containerStore
        = (c.containerStore.setStatus container.ID
            (setContainerRemoving d container.Status).1).setStatus container.ID
            (resetContainerRemoving d (setContainerRemoving d container.Status).1).1) := by
  rw [RemoveContainer_of_set d env c containerID container hget hset]
  simp only [Outcome.after_ret, Outcome.after_service, Outcome.after_calls]
  refine ⟨setContainerRemoving_of_idle d container.Status hs hr, fun _ => rfl, rfl,
    ?_, ?_, ?_, ?_⟩
  · intro e hcd hnf
    simp [RemoveContainer.deferReset, RemoveContainer.deleteContainer, hcd, hnf]
  · intro e htol hck
    cases hcd : env.containerdDelete with
    | none =>
      simp [RemoveContainer.deferReset, RemoveContainer.deleteContainer,
        RemoveContainer.removeArtifacts, Outcome.after, hcd, hck]
    | some e0 =>
      simp [RemoveContainer.deferReset, RemoveContainer.deleteContainer,
        RemoveContainer.removeArtifacts, Outcome.after, hcd, hck, htol e0 hcd]
  · intro e htol hck hrm
    cases hcd : env.containerdDelete with
    | none =>
      simp [RemoveContainer.deferReset, RemoveContainer.deleteContainer,
        RemoveContainer.removeArtifacts, Outcome.after, hcd, hck, hrm]
    | some e0 =>
      simp [RemoveContainer.deferReset, RemoveContainer.deleteContainer,
        RemoveContainer.removeArtifacts, Outcome.after, hcd, hck, hrm, htol e0 hcd]
  · intro e he
    rcases deleteContainer_cases d env
      { c with containerStore :=
          c.containerStore.setStatus container.ID (setContainerRemoving d container.Status).1 }
      container.ID with ⟨⟨e1, he1⟩, hsv, hc⟩ | ⟨hdok, _, _⟩
    · unfold RemoveContainer.deferReset
      simp only [he1, hsv]
      refine ⟨?_, ?_, trivial, trivial⟩
      · intro k
        rcases hc with hc | hc | hc <;> simp [hc]
      · intro k
        rcases hc with hc | hc | hc <;> simp [hc]
    · unfold RemoveContainer.deferReset at he
      simp [hdok] at he

/-- C7 at a concrete input: removing `c1` when the checkpoint delete fails. -/
theorem RemoveContainer_failure_resets_removing_witness :
    (RemoveContainer sampleDeps
        { containerdDelete := none,
          checkpointDelete := some { msg := "disk full", notFound := false },
          ensureRemoveAll := fun _ => none }
        sampleService "c1").ret
      = Except.error (Errorf "failed to delete container checkpoint for \"c1\": disk full") ∧
    (RemoveContainer sampleDeps
        { containerdDelete := none,
          checkpointDelete := some { msg := "disk full", notFound := false },
          ensureRemoveAll := fun _ => none }
        sampleService "c1").calls
      = [Call.containerStoreGet "c1",
         Call.statusUpdate "c1" { createdStatus with Removing := true },
         Call.containerdDelete "c1",
         Call.checkpointDelete "c1",
         Call.statusUpdate "c1" createdStatus] :=
  (RemoveContainer_failure_resets_removing sampleDeps
      { containerdDelete := none,
        checkpointDelete := some { msg := "disk full", notFound := false },
        ensureRemoveAll := fun _ => none }
      sampleService "c1" { ID := "c1", Metadata := sampleMetadata, Status := createdStatus }
      rfl (by decide) rfl rfl).2.2.2.2.1
    { msg := "disk full", notFound := false } (fun _ h => nomatch h) rfl

theorem Store.find?_setStatus (s : Store) (id : String) (st : Status) (id0 : String) :
    (s.setStatus id st).find? (fun c => decide (c.ID = id0))
      = (s.find? (fun c => decide (c.ID = id0))).map
          (fun c => if c.ID = id then { c with Status := st } else c) := by
  unfold Store.setStatus
  induction s with
  | nil => rfl
  | cons c0 rest ih =>
    have hID : (if c0.ID = id then { c0 with Status := st } else c0).ID = c0.ID := by
      split <;> rfl
    rw [List.map_cons, List.find?_cons, List.find?_cons, hID]
    cases hd : decide (c0.ID = id0) with
    | true => rfl
    | false => simpa using ih

/-- Reading the store of the specification after a write through a status storage. -/
theorem Store.Get_setStatus (e : Error) (s : Store) (id : String) (st : Status)
    (id0 : String) (container : Container)
    (h : Store.Get e s id0 = Except.ok container) :
    Store.Get e (s.setStatus id st) id0
      = Except.ok (if container.ID = id then { container with Status := st } else container) := by
  unfold Store.Get at *
  rw [Store.find?_setStatus]
  cases hf : s.find? (fun c => decide (c.ID = id0)) with
  | none => simp [hf] at h
  | some c0 =>
    simp only [hf] at h
    have hc : c0 = container := by
      injection h
    subst hc
    rfl

/-- No status update is among the calls of lines 66-89 of `RemoveContainer`. -/
theorem deleteContainer_no_update (d : Deps) (env : RemoveEnv) (c : criContainerdService)
    (id : String) (k : String) (st : Status) :
    Call.statusUpdate k st ∉ (RemoveContainer.deleteContainer d env c id).calls := by
  rcases deleteContainer_cases d env c id with ⟨_, _, hc | hc | hc⟩ | ⟨_, _, hc⟩ <;>
    simp [hc]


/-- With the update of the specification, `setContainerRemoving` stores and returns what
its transaction returns. -/
theorem setContainerRemoving_spec (d : Deps) (hCommit : d.commit = specCommit)
    (status : Status) :
    setContainerRemoving d status = setContainerRemoving.transaction d status := by
  unfold setContainerRemoving Update
  rw [hCommit]
  rfl

/-- C8, as the code has it, with the update and the store of the specification. A
`RemoveContainer` on a found container that is running or already being removed returns
an error after one update that stores the status unchanged, so a `Removing` flag that was
set stays set. On a found container that is neither, the flag is stored as set before
the delete steps, none of which updates the status; when the call fails, the last call
stores the flag as cleared and the container is found in the store with the status it
had before the call; when the call succeeds there is no further update and the container
is no longer found in the store. -/
theorem RemoveContainer_removing_flag (d : Deps) (env : RemoveEnv)
    (c : criContainerdService) (containerID : String) (container : Container)
    (hCommit : d.commit = specCommit) (hG : d.Get = Store.Get d.ErrNotExist)
    (hD : d.Delete = Store.Delete)
    (hget : d.Get c.containerStore containerID = Except.ok container) :
    ((d.State container.Status = ContainerState.CONTAINER_RUNNING ∨
        container.Status.Removing = true) →
      (∃ e, (RemoveContainer d env c containerID).ret = Except.error e) ∧
      (RemoveContainer d env c containerID).calls
        = [Call.containerStoreGet containerID,
           Call.statusUpdate container.ID container.Status] ∧
      d.Get (RemoveContainer d env c containerID).service.containerStore containerID
        = Except.ok container) ∧
    (d.State container.Status ≠ ContainerState.CONTAINER_RUNNING →
      container.Status.Removing = false →
      (∀ e, (RemoveContainer d env c containerID).ret = Except.error e →
        (∃ steps : List Call,
          (RemoveContainer d env c containerID).calls
            = [Call.containerStoreGet containerID,
               Call.statusUpdate container.ID { container.Status with Removing := true }]
              ++ steps
              ++ [Call.statusUpdate container.ID { container.Status with Removing := false }] ∧
          ∀ k st, Call.statusUpdate k st ∉ steps) ∧
        d.Get (RemoveContainer d env c containerID).service.containerStore containerID
          = Except.ok container) ∧
      ((RemoveContainer d env c containerID).ret = Except.ok () →
        (∃ steps : List Call,
          (RemoveContainer d env c containerID).calls
            = [Call.containerStoreGet containerID,
               Call.statusUpdate container.ID { container.Status with Removing := true }]
              ++ steps ∧
          ∀ k st, Call.statusUpdate k st ∉ steps) ∧
        d.Get (RemoveContainer d env c containerID).service.containerStore containerID
          = Except.error d.ErrNotExist)) := by
  have hid : container.ID = containerID := by
    rw [hG] at hget
    exact Store.Get_ok_ID _ _ _ _ hget
  have hgetS : Store.Get d.ErrNotExist c.containerStore containerID = Except.ok container := by
    rw [← hG]
    exact hget
  constructor
  · intro hrej
    have htx : setContainerRemoving.transaction d container.Status ≠
          ({ container.Status with Removing := true }, none) ∧
        (setContainerRemoving.transaction d container.Status).1 = container.Status ∧
        ∃ e, (setContainerRemoving.transaction d container.Status).2 = some e := by
      unfold setContainerRemoving.transaction
      by_cases hs : d.State container.Status = ContainerState.CONTAINER_RUNNING
      · simp [hs]
      · have hr : container.Status.Removing = true := by
          rcases hrej with h | h
          · exact absurd h hs
          · exact h
        simp [hs, hr]
    obtain ⟨_, hst, e, he⟩ := htx
    unfold RemoveContainer
    simp only [hget, setContainerRemoving_spec d hCommit, he, hst]
    refine ⟨?_, ?_, ?_⟩
    · simp
    · simp
    · rw [hG, Store.Get_setStatus _ _ _ _ _ _ hgetS]
      simp
  · intro hs hr
    have hsetv : setContainerRemoving d container.Status
        = ({ container.Status with Removing := true }, none) := by
      rw [setContainerRemoving_of_idle d container.Status hs hr, hCommit]
      rfl
    have hset : (setContainerRemoving d container.Status).2 = none := by
      rw [hsetv]
    rw [RemoveContainer_of_set d env c containerID container hget hset]
    simp only [Outcome.after_ret, Outcome.after_service, Outcome.after_calls, hsetv]
    have hreset : resetContainerRemoving d { container.Status with Removing := true }
        = (container.Status, none) := by
      unfold resetContainerRemoving Update resetContainerRemoving.transaction
      rw [hCommit]
      unfold specCommit
      simp only [← hr]
    have hclear : ({ container.Status with Removing := false } : Status) = container.Status := by
      simp only [← hr]
    have hcases := deleteContainer_cases d env
      { c with containerStore :=
          (c.containerStore.setStatus container.ID { container.Status with Removing := true }) }
      container.ID
    have hno : ∀ k st, Call.statusUpdate k st ∉
        (RemoveContainer.deleteContainer d env
          { c with containerStore :=
              (c.containerStore.setStatus container.ID
                { container.Status with Removing := true }) }
          container.ID).calls :=
      fun k st => deleteContainer_no_update d env _ container.ID k st
    generalize RemoveContainer.deleteContainer d env
      { c with containerStore :=
          (c.containerStore.setStatus container.ID { container.Status with Removing := true }) }
      container.ID = del at hcases hno ⊢
    rcases hcases with ⟨⟨e1, he1⟩, hsv, _⟩ | ⟨hdok, hsv, _⟩
    · constructor
      · intro e _
        unfold RemoveContainer.deferReset
        simp only [he1, hsv, hreset, hclear]
        refine ⟨⟨del.calls, by simp, hno⟩, ?_⟩
        rw [hG, Store.Get_setStatus _ _ _ _ _
          { container with Status := { container.Status with Removing := true } }]
        · simp
        · rw [Store.Get_setStatus _ _ _ _ _ _ hgetS]
          simp
      · intro hok
        unfold RemoveContainer.deferReset at hok
        simp [he1] at hok
    · constructor
      · intro e he
        unfold RemoveContainer.deferReset at he
        simp [hdok] at he
      · intro _
        unfold RemoveContainer.deferReset
        simp only [hdok, hsv]
        refine ⟨⟨del.calls, rfl, hno⟩, ?_⟩
        rw [hG, hD, hid]
        exact Store.Get_Delete _ _ _

/-- C8 at a concrete input: removing `c1` when the removal of its root directory fails;
afterwards `c1` is found with the status it had. -/
theorem RemoveContainer_removing_flag_witness :
    sampleDeps.Get
        (RemoveContainer sampleDeps
          { containerdDelete := none, checkpointDelete := none,
            ensureRemoveAll := fun _ => some { msg := "device busy", notFound := false } }
          sampleService "c1").service.containerStore "c1"
      = Except.ok { ID := "c1", Metadata := sampleMetadata, Status := createdStatus } :=
  (((RemoveContainer_removing_flag sampleDeps
      { containerdDelete := none, checkpointDelete := none,
        ensureRemoveAll := fun _ => some { msg := "device busy", notFound := false } }
      sampleService "c1" { ID := "c1", Metadata := sampleMetadata, Status := createdStatus }
      rfl rfl rfl rfl).2 (by decide) rfl).1
    (Errorf ("failed to remove container root directory "
      ++ "\"/var/lib/cri-containerd/containers/c1\": device busy")) rfl).2

/-- C8 as stated fails. The container `c3` is being removed by another call; a
`RemoveContainer` on it fails at the initial step that sets the flag, and after this
failed attempt the flag is still set. -/
theorem failed_remove_may_leave_removing_set :
    (RemoveContainer sampleDeps
        { containerdDelete := none, checkpointDelete := none, ensureRemoveAll := fun _ => none }
        sampleService "c3").ret
      = Except.error (Errorf ("failed to set removing state for container \"c3\": "
          ++ "container is already in removing state")) ∧
    sampleDeps.Get
        (RemoveContainer sampleDeps
          { containerdDelete := none, checkpointDelete := none,
            ensureRemoveAll := fun _ => none }
          sampleService "c3").service.containerStore "c3"
      = Except.ok { ID := "c3", Metadata := sampleMetadata, Status := removingStatus } ∧
    removingStatus.Removing = true :=
  ⟨rfl, rfl, rfl⟩


/-- C9. For a container that is found, not running and not being removed, and whose
removing flag has been set: if the containerd delete succeeds or fails with a not-found
error, and the checkpoint delete and the removal of the root directory succeed, then
`RemoveContainer` returns success; the store delete and the name index release are made
for the container's ID, in that order, after the three delete steps; and the only status
update is the one that set the flag. -/
theorem RemoveContainer_success (d : Deps) (env : RemoveEnv)
    (c : criContainerdService) (containerID : String) (container : Container)
    (hget : d.Get c.containerStore containerID = Except.ok container)
    (hs : d.State container.Status ≠ ContainerState.CONTAINER_RUNNING)
    (hr : container.Status.Removing = false)
    (hset : (setContainerRemoving d container.Status).2 = none)
    (htol : ∀ e0, env.containerdDelete = some e0 → e0.notFound = true)
    (hck : env.checkpointDelete = none)
    (hrm : env.ensureRemoveAll (d.getContainerRootDir c.RootDir container.ID) = none) :
    (RemoveContainer d env c containerID).ret = Except.ok () ∧
    (RemoveContainer d env c containerID).calls
      = [Call.containerStoreGet containerID,
         Call.statusUpdate container.ID
           (d.commit container.Status { container.Status with Removing := true } none).1,
         Call.containerdDelete container.ID,
         Call.checkpointDelete container.ID,
         Call.ensureRemoveAll (d.getContainerRootDir c.RootDir container.ID),
         Call.containerStoreDelete container.ID,
         Call.nameIndexReleaseByKey container.ID] ∧
    (RemoveContainer d env c containerID).service.containerStore
      = d.Delete (c.containerStore.setStatus container.ID
          (d.commit container.Status { container.Status with Removing := true } none).1)
          container.ID ∧
    (RemoveContainer d env c containerID).service.containerNameIndex
      = d.ReleaseByKey c.containerNameIndex container.ID := by
  rw [RemoveContainer_of_set d env c containerID container hget hset]
  rw [setContainerRemoving_of_idle d container.Status hs hr]
  simp only [Outcome.after_ret, Outcome.after_service, Outcome.after_calls]
  cases hcd : env.containerdDelete with
  | none =>
    simp [RemoveContainer.deferReset, RemoveContainer.deleteContainer,
      RemoveContainer.removeArtifacts, Outcome.after, hcd, hck, hrm]
  | some e0 =>
    simp [RemoveContainer.deferReset, RemoveContainer.deleteContainer,
      RemoveContainer.removeArtifacts, Outcome.after, hcd, hck, hrm, htol e0 hcd]


/-- C9 at a concrete input: removing `c1` when containerd no longer knows the container. -/
theorem RemoveContainer_success_witness :
    (RemoveContainer sampleDeps
        { containerdDelete := some { msg := "container not found", notFound := true },
          checkpointDelete := none,
          ensureRemoveAll := fun _ => none }
        sampleService "c1").ret = Except.ok () ∧
    (RemoveContainer sampleDeps
        { containerdDelete := some { msg := "container not found", notFound := true },
          checkpointDelete := none,
          ensureRemoveAll := fun _ => none }
        sampleService "c1").calls
      = [Call.containerStoreGet "c1",
         Call.statusUpdate "c1" { createdStatus with Removing := true },
         Call.containerdDelete "c1",
         Call.checkpointDelete "c1",
         Call.ensureRemoveAll "/var/lib/cri-containerd/containers/c1",
         Call.containerStoreDelete "c1",
         Call.nameIndexReleaseByKey "c1"] :=
  have h := RemoveContainer_success sampleDeps
    { containerdDelete := some { msg := "container not found", notFound := true },
      checkpointDelete := none,
      ensureRemoveAll := fun _ => none }
    sampleService "c1" { ID := "c1", Metadata := sampleMetadata, Status := createdStatus }
    rfl (by decide) rfl rfl (fun e0 h => by cases h; rfl) rfl rfl
  ⟨h.1, h.2.1⟩

/-! ## Attach -/

/-- C10. For a container found in the store whose state is not `RUNNING`, `Attach` and
`attachContainer` return an error having made no call besides the lookup: the streaming
server is not asked, no task is loaded, no resize handler is registered, no streams are
attached. When the state is `RUNNING`, `Attach` returns exactly the result of
`GetAttach`. On every path, a failed lookup included, both leave the service as it is
and make no status update. -/
theorem attach_requires_running (d : Deps) (env : AttachEnv) (c : criContainerdService)
    (r : AttachRequest) (tty : Bool) :
    (∀ cntr : Container, d.Get c.containerStore r.ContainerId = Except.ok cntr →
      d.State cntr.Status ≠ ContainerState.CONTAINER_RUNNING →
      (Attach d env c r).ret
          = Except.error (Errorf ("container is in "
              ++ d.criContainerStateToString (d.State cntr.Status) ++ " state")) ∧
        (Attach d env c r).calls = [Call.containerStoreGet r.ContainerId] ∧
        (attachContainer d env c r.ContainerId tty).ret
          = Except.error (Errorf ("container is in "
              ++ d.criContainerStateToString (d.State cntr.Status) ++ " state")) ∧
        (attachContainer d env c r.ContainerId tty).calls
          = [Call.containerStoreGet r.ContainerId]) ∧
    (∀ cntr : Container, d.Get c.containerStore r.ContainerId = Except.ok cntr →
      d.State cntr.Status = ContainerState.CONTAINER_RUNNING →
      (Attach d env c r).ret = env.getAttach r ∧
        (Attach d env c r).calls
          = [Call.containerStoreGet r.ContainerId, Call.getAttach r.ContainerId]) ∧
    (Attach d env c r).service = c ∧
    (attachContainer d env c r.ContainerId tty).service = c ∧
    (∀ k st, Call.statusUpdate k st ∉ (Attach d env c r).calls) ∧
    (∀ k st, Call.statusUpdate k st ∉ (attachContainer d env c r.ContainerId tty).calls) := by
  refine ⟨?_, ?_, ?_, ?_, ?_, ?_⟩
  · intro cntr hget hs
    unfold Attach attachContainer
    simp [hget, hs]
  · intro cntr hget hs
    unfold Attach
    simp [hget, hs]
  · unfold Attach
    split
    · rfl
    · simp only
      split <;> rfl
  · unfold attachContainer
    split
    · rfl
    · simp only
      split
      · rfl
      · split
        · rfl
        · split <;> rfl
  · intro k st
    unfold Attach
    split
    · simp
    · simp only
      split <;> simp
  · intro k st
    unfold attachContainer
    split
    · simp
    · simp only
      split
      · simp
      · split
        · simp
        · split <;> simp

/-- C10 at a concrete input: attaching to the created container `c1` is refused, and
attaching to the running container `c2` returns what the streaming server returns. -/
theorem attach_requires_running_witness :
    (Attach sampleDeps
        { getAttach := fun _ => Except.ok { Url := "http://127.0.0.1:10010/attach/tok" },
          containerTask := none, attachStreams := none }
        sampleService { ContainerId := "c1", Stdin := true, Tty := false }).ret
      = Except.error (Errorf "container is in CONTAINER_CREATED state") ∧
    (Attach sampleDeps
        { getAttach := fun _ => Except.ok { Url := "http://127.0.0.1:10010/attach/tok" },
          containerTask := none, attachStreams := none }
        sampleService { ContainerId := "c2", Stdin := true, Tty := false }).ret
      = Except.ok { Url := "http://127.0.0.1:10010/attach/tok" } :=
  ⟨((attach_requires_running sampleDeps
        { getAttach := fun _ => Except.ok { Url := "http://127.0.0.1:10010/attach/tok" },
          containerTask := none, attachStreams := none }
        sampleService { ContainerId := "c1", Stdin := true, Tty := false } false).1
      { ID := "c1", Metadata := sampleMetadata, Status := createdStatus } rfl (by decide)).1,
   ((attach_requires_running sampleDeps
        { getAttach := fun _ => Except.ok { Url := "http://127.0.0.1:10010/attach/tok" },
          containerTask := none, attachStreams := none }
        sampleService { ContainerId := "c2", Stdin := true, Tty := false } false).2.1
      { ID := "c2", Metadata := sampleMetadata, Status := runningStatus } rfl (by decide)).1⟩


/-! ## Seccomp rule removal -/

/-- C13. `RemoveAction` on configurations in which two rules carry the names to remove.
With the two `personality` rules alone, the second removal slices beyond the length and
the call panics. With a `read` rule after them, the call returns nil and the slice is
left holding the second `personality` rule and the `read` rule: a rule with the names to
remove stays. With a single rule to remove, the call returns nil and the other rules
stay in their order. -/
theorem RemoveAction_two_rules_with_the_names :
    RemoveAction "personality"
        (some { Syscalls := (SyscallSlice.ofList
          [rule "personality" "SCMP_ACT_ALLOW", rule "personality" "SCMP_ACT_ERRNO"]) })
      = Except.error Panic.sliceBoundsOutOfRange ∧
    RemoveAction "personality"
        (some { Syscalls := (SyscallSlice.ofList
          [rule "personality" "SCMP_ACT_ALLOW", rule "personality" "SCMP_ACT_ERRNO",
           rule "read" "SCMP_ACT_ALLOW"]) })
      = Except.ok (none, some { Syscalls :=
          { array := [rule "personality" "SCMP_ACT_ERRNO", rule "read" "SCMP_ACT_ALLOW",
                      rule "read" "SCMP_ACT_ALLOW"],
            len := 2 } }) ∧
    SyscallSlice.toList
        { array := [rule "personality" "SCMP_ACT_ERRNO", rule "read" "SCMP_ACT_ALLOW",
                    rule "read" "SCMP_ACT_ALLOW"],
          len := 2 }
      = [rule "personality" "SCMP_ACT_ERRNO", rule "read" "SCMP_ACT_ALLOW"] ∧
    RemoveAction.syscallsToRemove "personality" = (rule "personality" "SCMP_ACT_ERRNO").Names ∧
    RemoveAction "read"
        (some { Syscalls := (SyscallSlice.ofList
          [rule "personality" "SCMP_ACT_ALLOW", rule "read" "SCMP_ACT_ERRNO",
           rule "write" "SCMP_ACT_ALLOW"]) })
      = Except.ok (none, some { Syscalls :=
          { array := [rule "personality" "SCMP_ACT_ALLOW", rule "write" "SCMP_ACT_ALLOW",
                      rule "write" "SCMP_ACT_ALLOW"],
            len := 2 } }) :=
  ⟨rfl, rfl, rfl, rfl, rfl⟩

/-- C12. `RemoveAllMatchingRules` for the action `allow`, parsed as `SCMP_ACT_ALLOW`. On
the rules `read` (allow), `write` (allow), `open` (errno) the call returns nil and the
slice is left holding the `write` and the `open` rule: a rule with the parsed action
stays. On two `read` rules with that action the call panics inside `RemoveAction`. -/
theorem RemoveAllMatchingRules_leaves_matching_rule :
    sampleParseAction "allow" = Except.ok "SCMP_ACT_ALLOW" ∧
    RemoveAllMatchingRules sampleParseAction
        (some { Syscalls := (SyscallSlice.ofList
          [rule "read" "SCMP_ACT_ALLOW", rule "write" "SCMP_ACT_ALLOW",
           rule "open" "SCMP_ACT_ERRNO"]) })
        "allow"
      = Except.ok (none, some { Syscalls :=
          { array := [rule "write" "SCMP_ACT_ALLOW", rule "open" "SCMP_ACT_ERRNO",
                      rule "open" "SCMP_ACT_ERRNO"],
            len := 2 } }) ∧
    SyscallSlice.toList
        { array := [rule "write" "SCMP_ACT_ALLOW", rule "open" "SCMP_ACT_ERRNO",
                    rule "open" "SCMP_ACT_ERRNO"],
          len := 2 }
      = [rule "write" "SCMP_ACT_ALLOW", rule "open" "SCMP_ACT_ERRNO"] ∧
    (rule "write" "SCMP_ACT_ALLOW").Action = "SCMP_ACT_ALLOW" ∧
    RemoveAllMatchingRules sampleParseAction
        (some { Syscalls := (SyscallSlice.ofList
          [rule "read" "SCMP_ACT_ALLOW", rule "read" "SCMP_ACT_ALLOW"]) })
        "allow"
      = Except.error Panic.sliceBoundsOutOfRange :=
  ⟨rfl, rfl, rfl, rfl, rfl⟩


end CriContainerd
